import Mathlib

/-!
Vitis `multiple_kernels` host program: a shallow embedding of
`src/Vitis/multiple_kernels/host/host.cpp`.

The program is one linear `main`.  Everything it does with the accelerator goes
through the XRT library, which is not part of the repository; it is modelled
as a `Runtime`: an arbitrary function that answers every XRT call, given the
calls made so far, with a handle or with an error, together with the data a
pull leaves in a host mirror.  `main` is written in a small state-and-exception
monad `Host` that keeps a log of the steps taken, the text written to standard
output and the host-visible buffer mirrors.
-/

namespace MultipleKernels

/-! ## Constants -/

/-- The macro `DATA_SIZE` (`#define DATA_SIZE 4096`). -/
def DATA_SIZE : Nat := 4096

/-- The value of `sizeof(int)` on the hosts XRT supports: 32-bit `int`. -/
def sizeof_int : Nat := 4

/-- The exit code `EXIT_FAILURE` of `<cstdlib>`. -/
def EXIT_FAILURE : Int := 1

/-! ## 32-bit `int` arithmetic and byte images -/

/-- The value of a 32-bit signed `int` holding the mathematical result `x`
after two's-complement wrap-around. -/
def wrap32 (x : Int) : Int := (x + 2 ^ 31) % 2 ^ 32 - 2 ^ 31

/-- Byte `j` (0 = least significant) of the two's-complement image of `x`. -/
def byteOf (x : Int) (j : Nat) : Nat := ((x % 2 ^ 32) / 256 ^ j % 256).toNat

/-- Byte at byte offset `k` of an `int` array: element `k / sizeof(int)`, byte
`k % sizeof(int)` (little-endian hosts). -/
def byteAt (a : Nat → Int) (k : Nat) : Nat := byteOf (a (k / sizeof_int)) (k % sizeof_int)

/-- Comparison loop of `std::memcmp` starting at byte offset `k` with `count`
bytes left: the sign of the first differing byte pair, 0 when there is none. -/
def memcmpFrom (lhs rhs : Nat → Int) : Nat → Nat → Int
  | _, 0 => 0
  | k, count + 1 =>
    if byteAt lhs k < byteAt rhs k then -1
    else if byteAt rhs k < byteAt lhs k then 1
    else memcmpFrom lhs rhs (k + 1) count

/-- The library function `std::memcmp(lhs, rhs, count)`: compares the first
`count` BYTES. -/
@[irreducible]
def memcmp (lhs rhs : Nat → Int) (count : Nat) : Int := memcmpFrom lhs rhs 0 count

/-! ## The XRT boundary -/

/-- The enumeration `xclBOSyncDirection`. -/
inductive Direction
  | XCL_BO_SYNC_BO_TO_DEVICE
  | XCL_BO_SYNC_BO_FROM_DEVICE
  deriving DecidableEq, Repr

/-- The XRT calls `main` makes.  Handles (device, uuid, kernel, buffer, run)
are natural numbers chosen by the runtime. -/
inductive Op
  /-- constructor `xrt::device(index)` -/
  | device (index : Int)
  /-- method `device.load_xclbin(file)` -/
  | load_xclbin (device : Nat) (file : String)
  /-- constructor `xrt::kernel(device, uuid, name)` -/
  | kernel (device uuid : Nat) (name : String)
  /-- method `kernel.group_id(argno)` -/
  | group_id (kernel : Nat) (argno : Nat)
  /-- constructor `xrt::bo(device, size, group)` -/
  | bo (device : Nat) (size : Nat) (group : Nat)
  /-- method `bo.map<int*>()` -/
  | map (bo : Nat)
  /-- method `bo.sync(dir)` -/
  | sync (bo : Nat) (dir : Direction)
  /-- call `kernel(arg0, arg1, arg2, arg3)`: set the arguments and start a run -/
  | run (kernel : Nat) (arg0 arg1 arg2 : Nat) (arg3 : Int)
  /-- method `run.wait()` -/
  | wait (run : Nat)
  deriving DecidableEq, Repr

/-- What an XRT call gives back: a value (a handle; ignored for calls that
return nothing) or a thrown error. -/
inductive Reply
  | ok (value : Nat)
  | error (what : String)
  deriving DecidableEq, Repr

/-- One XRT call together with its reply. -/
structure Call where
  op : Op
  reply : Reply
  deriving DecidableEq, Repr

/-- One observable step of the program. -/
inductive Step
  /-- an XRT call and what it returned -/
  | call (op : Op) (reply : Reply)
  /-- the test-data loop wrote the mirrors of buffers `in0` and `in1` -/
  | populate (in0 in1 : Nat)
  /-- a `std::memcmp` of the mirror of buffer `lhs` against the reference -/
  | memcmp (lhs : Nat) (count : Nat) (result : Int)
  deriving DecidableEq, Repr

/-- The XRT calls of a log, in order. -/
def calls : List Step → List Call
  | [] => []
  | .call op reply :: l => ⟨op, reply⟩ :: calls l
  | .populate _ _ :: l => calls l
  | .memcmp _ _ _ :: l => calls l

/-- Number of successful pulls (`sync(XCL_BO_SYNC_BO_FROM_DEVICE)`) in a
history of calls. -/
def pulls : List Call → Nat
  | [] => 0
  | ⟨.sync _ .XCL_BO_SYNC_BO_FROM_DEVICE, .ok _⟩ :: l => pulls l + 1
  | _ :: l => pulls l

/-- The accelerator runtime, device and image as seen by the host program.
`respond history op` is the reply to `op` after the calls in `history`;
`output k i` is element `i` of the host mirror after the `k`-th successful
pull (`k = 0`: the add job, `k = 1`: the multiply job). -/
structure Runtime where
  respond : List Call → Op → Reply
  output : Nat → Nat → Int

/-! ## The host monad -/

/-- What terminates the process abnormally. -/
inductive Exception
  /-- an error thrown by an XRT call -/
  | xrt (what : String)
  /-- a `std::runtime_error` thrown by `main` itself -/
  | runtime_error (what : String)
  deriving DecidableEq, Repr

/-- Host state: the step log, standard output (one entry per output
statement) and the host mirrors of the buffers, indexed by buffer handle. -/
structure St where
  log : List Step
  out : List String
  mem : Nat → Nat → Int

/-- A host computation: runs on a state, ends with a value or an uncaught
exception, and leaves a state either way. -/
def Host (α : Type) : Type := St → Except Exception α × St

/-- Sequencing: an exception skips the rest. -/
def Host.bind {α β : Type} (m : Host α) (f : α → Host β) : Host β := fun s =>
  match m s with
  | (.ok a, s1) => f a s1
  | (.error e, s1) => (.error e, s1)

instance : Monad Host where
  pure a := fun s => (.ok a, s)
  bind := Host.bind

/-- The output statement `std::cout << text`. -/
def cout (text : String) : Host Unit := fun s =>
  (.ok (), { s with out := s.out ++ [text] })

/-- An XRT call: asks the runtime, logs call and reply, throws on an error. -/
def call (rt : Runtime) (op : Op) : Host Nat := fun s =>
  match rt.respond (calls s.log) op with
  | .ok v => (.ok v, { s with log := s.log ++ [.call op (.ok v)] })
  | .error e => (.error (.xrt e), { s with log := s.log ++ [.call op (.error e)] })

/-- The call `bo.map<int*>()`.  The pointer is represented by the buffer whose mirror it
addresses; the address the runtime returns is not used otherwise. -/
def map (rt : Runtime) (bo : Nat) : Host Nat := do
  let _ ← call rt (.map bo)
  pure bo

/-- The call `bo.sync(dir)`.  A successful pull replaces the mirror of `bo` by what the
device holds. -/
def sync (rt : Runtime) (bo : Nat) (dir : Direction) : Host Unit := fun s =>
  match call rt (.sync bo dir) s with
  | (.ok _, s1) =>
    match dir with
    | .XCL_BO_SYNC_BO_TO_DEVICE => (.ok (), s1)
    | .XCL_BO_SYNC_BO_FROM_DEVICE =>
      (.ok (), { s1 with mem := Function.update s1.mem bo (rt.output (pulls (calls s.log))) })
  | (.error e, s1) => (.error e, s1)

/-- One iteration of the test-data loop (`host.cpp` lines 62-64 and 102-104):
`in0[i] = i; in1[i] = i; ref[i] = in0[i] op in1[i];` in 32-bit arithmetic. -/
def testDataStep (op : Int → Int → Int) (in0 in1 : Nat)
    (st : (Nat → Nat → Int) × (Nat → Int)) (i : Nat) : (Nat → Nat → Int) × (Nat → Int) :=
  let mem1 := Function.update st.1 in0 (Function.update (st.1 in0) i (i : Int))
  let mem2 := Function.update mem1 in1 (Function.update (mem1 in1) i (i : Int))
  (mem2, Function.update st.2 i (wrap32 (op (mem2 in0 i) (mem2 in1 i))))

/-- The loop `for (int i = 0; i < n; ++i)` over `testDataStep`, starting from
host memory `mem` and a fresh reference array. -/
@[irreducible]
def testDataLoop (op : Int → Int → Int) (in0 in1 : Nat) (n : Nat) (mem : Nat → Nat → Int) :
    (Nat → Nat → Int) × (Nat → Int) :=
  (List.range n).foldl (testDataStep op in0 in1) (mem, fun _ => 0)

/-- The block "Create the test data": runs the loop for `DATA_SIZE` iterations on the
host mirrors and returns the reference array. -/
def createTestData (op : Int → Int → Int) (in0 in1 : Nat) : Host (Nat → Int) := fun s =>
  let r := testDataLoop op in0 in1 DATA_SIZE s.mem
  (.ok r.2, { s with mem := r.1, log := s.log ++ [.populate in0 in1] })

/-- The call `std::memcmp(lhs_map, ref, count)` on the mirror of buffer `lhs`. -/
def hostMemcmp (lhs : Nat) (ref : Nat → Int) (count : Nat) : Host Int := fun s =>
  let r := memcmp (s.mem lhs) ref count
  (.ok r, { s with log := s.log ++ [.memcmp lhs count r] })

/-- The statement `throw std::runtime_error(what)`. -/
def throw_runtime_error {α : Type} (what : String) : Host α := fun s =>
  (.error (.runtime_error what), s)

/-! ## `main` -/

/-- Lines 38-126 of `host.cpp`: everything after the argument check. -/
def mainBody (rt : Runtime) (binaryFile : String) : Host Int := do
  let device_index : Int := 0
  cout ("Open the device" ++ toString device_index ++ "\n")
  let device ← call rt (.device device_index)
  cout ("Load the xclbin " ++ binaryFile ++ "\n")
  let uuid ← call rt (.load_xclbin device binaryFile)
  let vector_size_bytes := sizeof_int * DATA_SIZE
  -- Vector Addition Kernel
  cout "\nStarting the vadd kernel...\n"
  let krnl_vadd ← call rt (.kernel device uuid "krnl_vadd")
  cout "Allocate Buffer in Global Memory\n"
  let bo0 ← call rt (.bo device vector_size_bytes (← call rt (.group_id krnl_vadd 0)))
  let bo1 ← call rt (.bo device vector_size_bytes (← call rt (.group_id krnl_vadd 1)))
  let bo_out ← call rt (.bo device vector_size_bytes (← call rt (.group_id krnl_vadd 2)))
  -- Map the contents of the buffer object into host memory
  let bo0_map ← map rt bo0
  let bo1_map ← map rt bo1
  let bo_out_map ← map rt bo_out
  -- Create the test data
  let buf_ref ← createTestData (fun a b => a + b) bo0_map bo1_map
  -- Synchronize buffer content with device side
  cout "synchronize input buffer data to device global memory\n"
  sync rt bo0 .XCL_BO_SYNC_BO_TO_DEVICE
  sync rt bo1 .XCL_BO_SYNC_BO_TO_DEVICE
  cout "Execution of the vadd kernel\n"
  let run ← call rt (.run krnl_vadd bo0 bo1 bo_out DATA_SIZE)
  let _ ← call rt (.wait run)
  -- Get the output
  cout "Get the output data from the device\n"
  sync rt bo_out .XCL_BO_SYNC_BO_FROM_DEVICE
  -- Validate our results
  if (← hostMemcmp bo_out_map buf_ref DATA_SIZE) ≠ 0 then
    throw_runtime_error "Value read back does not match reference"
  -- Vector Multiplication Kernel
  cout "\nStarting the vmult kernel...\n"
  let krnl_vmult ← call rt (.kernel device uuid "krnl_vmult")
  cout "Allocate Buffer in Global Memory\n"
  let bo2 ← call rt (.bo device vector_size_bytes (← call rt (.group_id krnl_vmult 0)))
  let bo3 ← call rt (.bo device vector_size_bytes (← call rt (.group_id krnl_vmult 1)))
  let bo_output ← call rt (.bo device vector_size_bytes (← call rt (.group_id krnl_vmult 2)))
  -- Map the contents of the buffer object into host memory
  let bo2_map ← map rt bo2
  let bo3_map ← map rt bo3
  let bo_output_map ← map rt bo_output
  -- Create the test data
  let buf_ref1 ← createTestData (fun a b => a * b) bo2_map bo3_map
  -- Synchronize buffer content with device side
  cout "synchronize input buffer data to device global memory\n"
  sync rt bo2 .XCL_BO_SYNC_BO_TO_DEVICE
  sync rt bo3 .XCL_BO_SYNC_BO_TO_DEVICE
  cout "Execution of the vmult kernel\n"
  let run1 ← call rt (.run krnl_vmult bo2 bo3 bo_output DATA_SIZE)
  let _ ← call rt (.wait run1)
  -- Get the output
  cout "Get the output data from the device\n"
  sync rt bo_output .XCL_BO_SYNC_BO_FROM_DEVICE
  -- Validate our results
  if (← hostMemcmp bo_output_map buf_ref1 DATA_SIZE) ≠ 0 then
    throw_runtime_error "Value read back does not match reference"
  cout "TEST PASSED\n"
  return 0

/-- How the process ends. -/
inductive Exit
  /-- the function `main` returned this exit code -/
  | returned (code : Int)
  /-- an exception left `main`: the process is terminated abnormally -/
  | terminated (e : Exception)
  /-- undefined behaviour: `std::string` constructed from a null (or
  out-of-bounds) `argv[1]`; with libstdc++ a `std::logic_error` is thrown -/
  | undefined
  deriving DecidableEq, Repr

/-- What can be observed of one run of the program. -/
structure Outcome where
  exit : Exit
  log : List Step
  out : List String
  deriving DecidableEq

/-- The state `main` starts in: nothing logged, nothing printed. -/
def St.init : St := { log := [], out := [], mem := fun _ _ => 0 }

/-- Observable outcome of a finished host computation. -/
def finish (r : Except Exception Int × St) : Outcome :=
  match r with
  | (.ok code, s) => { exit := .returned code, log := s.log, out := s.out }
  | (.error e, s) => { exit := .terminated e, log := s.log, out := s.out }

/-- The function `int main(int argc, char** argv)` with `argv[0..argc-1] = args` and
`argv[argc]` the null pointer.  Line 30 reads `argv[1]` before `argc` is
checked. -/
def main (rt : Runtime) (args : List String) : Outcome :=
  -- std::string binaryFile = argv[1];
  match args[1]? with
  | none => { exit := .undefined, log := [], out := [] }
  | some binaryFile =>
    if args.length ≠ 2 then
      { exit := .returned EXIT_FAILURE, log := [],
        out := ["Usage: " ++ args.getD 0 "" ++ " <XCLBIN File>\n"] }
    else
      finish (mainBody rt binaryFile St.init)

/-! ## Vocabulary for stating properties of runs -/

/-- The exception `main` throws when a comparison finds a difference. -/
def validationError : Exception :=
  .runtime_error "Value read back does not match reference"

/-- The reference array the test-data loop leaves behind: `op(i, i)` in 32-bit
arithmetic for the `DATA_SIZE` indices written. -/
def reference (op : Int → Int → Int) (i : Nat) : Int :=
  if i < DATA_SIZE then wrap32 (op i i) else 0

/-- Result of the add job's comparison: the pulled output against the add
reference. -/
def cmp0 (rt : Runtime) : Int := memcmp (rt.output 0) (reference fun a b => a + b) DATA_SIZE

/-- Result of the multiply job's comparison. -/
def cmp1 (rt : Runtime) : Int := memcmp (rt.output 1) (reference fun a b => a * b) DATA_SIZE

/-- A step that makes the run fail: an XRT call answered with an error, or a
comparison that found a difference. -/
def Step.failed : Step → Bool
  | .call _ (.error _) => true
  | .memcmp _ _ result => result != 0
  | _ => false

/-- Value returned by the `k`-th XRT call of a log (0 when it failed or does
not exist). -/
def values (log : List Step) (k : Nat) : Nat :=
  match (calls log)[k]? with
  | some ⟨_, .ok v⟩ => v
  | _ => 0

/-- The steps of one job when nothing fails: `v k` is the value returned by
the job's `k`-th XRT call, `c` the result of its comparison. -/
def jobLog (name : String) (device uuid : Nat) (v : Nat → Nat) (c : Int) : List Step :=
  [ .call (.kernel device uuid name) (.ok (v 0)),
    .call (.group_id (v 0) 0) (.ok (v 1)),
    .call (.bo device (sizeof_int * DATA_SIZE) (v 1)) (.ok (v 2)),
    .call (.group_id (v 0) 1) (.ok (v 3)),
    .call (.bo device (sizeof_int * DATA_SIZE) (v 3)) (.ok (v 4)),
    .call (.group_id (v 0) 2) (.ok (v 5)),
    .call (.bo device (sizeof_int * DATA_SIZE) (v 5)) (.ok (v 6)),
    .call (.map (v 2)) (.ok (v 7)),
    .call (.map (v 4)) (.ok (v 8)),
    .call (.map (v 6)) (.ok (v 9)),
    .populate (v 2) (v 4),
    .call (.sync (v 2) .XCL_BO_SYNC_BO_TO_DEVICE) (.ok (v 10)),
    .call (.sync (v 4) .XCL_BO_SYNC_BO_TO_DEVICE) (.ok (v 11)),
    .call (.run (v 0) (v 2) (v 4) (v 6) DATA_SIZE) (.ok (v 12)),
    .call (.wait (v 12)) (.ok (v 13)),
    .call (.sync (v 6) .XCL_BO_SYNC_BO_FROM_DEVICE) (.ok (v 14)),
    .memcmp (v 6) DATA_SIZE c ]

/-- The steps of a whole run when nothing fails: open, load, the add job, the
multiply job.  `v k` is the value returned by the `k`-th XRT call. -/
def fullLog (file : String) (v : Nat → Nat) (c0 c1 : Int) : List Step :=
  [ .call (.device 0) (.ok (v 0)),
    .call (.load_xclbin (v 0) file) (.ok (v 1)) ]
  ++ jobLog "krnl_vadd" (v 0) (v 1) (fun k => v (k + 2)) c0
  ++ jobLog "krnl_vmult" (v 0) (v 1) (fun k => v (k + 17)) c1

/-- Everything a successful run writes to standard output. -/
def fullOut (file : String) : List String :=
  [ "Open the device" ++ toString (0 : Int) ++ "\n",
    "Load the xclbin " ++ file ++ "\n",
    "\nStarting the vadd kernel...\n",
    "Allocate Buffer in Global Memory\n",
    "synchronize input buffer data to device global memory\n",
    "Execution of the vadd kernel\n",
    "Get the output data from the device\n",
    "\nStarting the vmult kernel...\n",
    "Allocate Buffer in Global Memory\n",
    "synchronize input buffer data to device global memory\n",
    "Execution of the vmult kernel\n",
    "Get the output data from the device\n",
    "TEST PASSED\n" ]

/-- The four ways a run with a well-formed command line can end, with the
log it leaves: (1) an XRT call fails, (2) the add comparison finds a
difference, (3) the multiply comparison finds a difference, (4) success. -/
def Shape (rt : Runtime) (file : String) (c0 c1 : Int) (r : Outcome) : Prop :=
  (∃ op rep e,
      (fullLog file (values r.log) 0 0)[r.log.length - 1]? = some (.call op rep) ∧
      r.log = (fullLog file (values r.log) 0 0).take (r.log.length - 1) ++ [.call op (.error e)] ∧
      r.exit = .terminated (.xrt e) ∧
      r.out = (fullOut file).take r.out.length ∧ r.out.length ≤ 12 ∧
      rt.respond (calls ((fullLog file (values r.log) 0 0).take (r.log.length - 1))) op = .error e)
  ∨ (c0 ≠ 0 ∧ r.log = (fullLog file (values r.log) c0 0).take 19 ∧
      r.exit = .terminated validationError ∧
      r.out = (fullOut file).take r.out.length ∧ r.out.length ≤ 12)
  ∨ (c0 = 0 ∧ c1 ≠ 0 ∧ r.log = fullLog file (values r.log) 0 c1 ∧
      r.exit = .terminated validationError ∧
      r.out = (fullOut file).take r.out.length ∧ r.out.length ≤ 12)
  ∨ (c0 = 0 ∧ c1 = 0 ∧ r.log = fullLog file (values r.log) 0 0 ∧
      r.exit = .returned 0 ∧ r.out = fullOut file)

/-- A buffer allocation (`xrt::bo(...)`), whatever it returned. -/
def Step.isAlloc : Step → Bool
  | .call (.bo _ _ _) _ => true
  | _ => false

/-- An image load (`load_xclbin`), whatever it returned. -/
def Step.isLoad : Step → Bool
  | .call (.load_xclbin _ _) _ => true
  | _ => false

/-- A kernel resolution (`xrt::kernel(...)`), whatever it returned. -/
def Step.isResolve : Step → Bool
  | .call (.kernel _ _ _) _ => true
  | _ => false

/-- A resolution of the kernel called `name`, whatever it returned. -/
def Step.resolves (name : String) : Step → Bool
  | .call (.kernel _ _ n) _ => n == name
  | _ => false

/-- The kernel handle a step works on: `group_id` lookups and invocations. -/
def Step.kernelUsed : Step → Option Nat
  | .call (.group_id k _) _ => some k
  | .call (.run k _ _ _ _) _ => some k
  | _ => none

/-- The buffers a step maps, populates, transfers, passes as kernel arguments
or compares. -/
def Step.buffers : Step → List Nat
  | .call (.map b) _ => [b]
  | .call (.sync b _) _ => [b]
  | .call (.run _ a b c _) _ => [a, b, c]
  | .populate a b => [a, b]
  | .memcmp b _ _ => [b]
  | _ => []

/-- The buffer handles returned by the successful allocations of a log, in
order. -/
def allocated : List Step → List Nat
  | [] => []
  | .call (.bo _ _ _) (.ok b) :: l => b :: allocated l
  | _ :: l => allocated l

/-- A host-side mapping call (`bo.map`), which moves no data. -/
def Op.isMap : Op → Bool
  | .map _ => true
  | _ => false

/-- The XRT calls of a log other than the host-side mappings. -/
def deviceCalls (log : List Step) : List Call :=
  (calls log).filter fun c => !c.op.isMap

/-- A runtime on which every call succeeds and returns a fresh handle (the
number of calls made before), and whose device computes both jobs correctly. -/
def goodRuntime : Runtime :=
  { respond := fun history _ => .ok history.length,
    output := fun k i => if i < DATA_SIZE then (if k = 0 then 2 * i else i * i) else 0 }

/-- Like `goodRuntime`, except that the add kernel leaves 0 instead of 8190 in
the last element of its output. -/
def tailFaultRuntime : Runtime :=
  { respond := fun history _ => .ok history.length,
    output := fun k i =>
      if i < DATA_SIZE then (if k = 0 then (if i = 4095 then 0 else 2 * i) else i * i) else 0 }

/-- A runtime whose device opens but on which no image can be loaded. -/
def noImageRuntime : Runtime :=
  { respond := fun history op =>
      match op with
      | .load_xclbin _ _ => .error "xclbin not found"
      | _ => .ok history.length,
    output := fun _ _ => 0 }

/-- A transfer between host and device (`bo.sync`), whatever it returned. -/
def Step.isTransfer : Step → Bool
  | .call (.sync _ _) _ => true
  | _ => false

/-- A kernel invocation, whatever it returned. -/
def Step.isInvoke : Step → Bool
  | .call (.run _ _ _ _ _) _ => true
  | _ => false

/-- A successful resolution of the kernel called `name`. -/
def Step.resolved (name : String) : Step → Bool
  | .call (.kernel _ _ n) (.ok _) => n == name
  | _ => false

/-- `log` is the nominal sequence `L` cut short: a front part of `L`, possibly
followed by the next call of `L` answered with an error instead. -/
def CutOf (L log : List Step) : Prop :=
  ∃ n, log = L.take n ∨
    ∃ op rep e, L[n]? = some (.call op rep) ∧ log = L.take n ++ [.call op (.error e)]

/-- What the properties below need to know about the steps before a step. -/
structure Summary where
  /-- the image loads so far -/
  loads : List Step
  /-- the kernel resolutions so far -/
  resolutions : List Step
  /-- the buffers allocated so far -/
  buffers : List Nat
  /-- the number of allocation calls so far -/
  allocs : Nat
  /-- whether `krnl_vmult` has been resolved (the multiply job has begun) -/
  multStarted : Bool
  /-- whether `krnl_vadd` has been resolved successfully -/
  vaddResolved : Bool
  /-- whether `krnl_vmult` has been resolved successfully -/
  vmultResolved : Bool

/-- The summary of a log. -/
def summarize (pre : List Step) : Summary :=
  { loads := pre.filter Step.isLoad,
    resolutions := pre.filter Step.isResolve,
    buffers := allocated pre,
    allocs := (pre.filter Step.isAlloc).length,
    multStarted := pre.any (Step.resolves "krnl_vmult"),
    vaddResolved := pre.any (Step.resolved "krnl_vadd"),
    vmultResolved := pre.any (Step.resolved "krnl_vmult") }

/-- The summary after one more step. -/
def Summary.push (s : Summary) (st : Step) : Summary :=
  { loads := s.loads ++ [st].filter Step.isLoad,
    resolutions := s.resolutions ++ [st].filter Step.isResolve,
    buffers := s.buffers ++ allocated [st],
    allocs := s.allocs + ([st].filter Step.isAlloc).length,
    multStarted := s.multStarted || [st].any (Step.resolves "krnl_vmult"),
    vaddResolved := s.vaddResolved || [st].any (Step.resolved "krnl_vadd"),
    vmultResolved := s.vmultResolved || [st].any (Step.resolved "krnl_vmult") }

/-- `P s' st` holds for every step `st` of `L`, where `s'` summarizes the
steps before `st` (starting from the summary `s`). -/
def ScanAll (P : Summary → Step → Prop) : Summary → List Step → Prop
  | _, [] => True
  | s, st :: rest => P s st ∧ ScanAll P (s.push st) rest

/-- Two host memories agree on the first `m` ints of every mirror. -/
def MemAgree (m : Nat) (a b : Nat → Nat → Int) : Prop :=
  ∀ p i, i < m → a p i = b p i

/-- Two host states with the same log and output whose mirrors agree on the
ints the comparisons read. -/
def StRel (s t : St) : Prop :=
  s.log = t.log ∧ s.out = t.out ∧ MemAgree 1024 s.mem t.mem

/-- Two host computations that, from related states, end the same way in
related states. -/
def HostRel {α : Type} (m n : Host α) : Prop :=
  ∀ s t, StRel s t → (m s).1 = (n t).1 ∧ StRel (m s).2 (n t).2

/-! ## How the host monad runs -/

theorem bind_apply {α β : Type} (m : Host α) (f : α → Host β) (s : St) :
    (m >>= f) s = match m s with
      | (.ok a, s1) => f a s1
      | (.error e, s1) => (.error e, s1) := rfl

@[simp] theorem cout_bind {β : Type} (t : String) (f : Unit → Host β) (s : St) :
    (cout t >>= f) s = f () { s with out := s.out ++ [t] } := rfl

@[simp] theorem call_bind {β : Type} (rt : Runtime) (op : Op) (f : Nat → Host β) (s : St) :
    (call rt op >>= f) s = match rt.respond (calls s.log) op with
      | .ok v => f v { s with log := s.log ++ [.call op (.ok v)] }
      | .error e => (.error (.xrt e), { s with log := s.log ++ [.call op (.error e)] }) := by
  simp only [bind_apply, call]
  cases rt.respond (calls s.log) op <;> rfl

@[simp] theorem map_bind {β : Type} (rt : Runtime) (bo : Nat) (f : Nat → Host β) (s : St) :
    (map rt bo >>= f) s = match rt.respond (calls s.log) (.map bo) with
      | .ok v => f bo { s with log := s.log ++ [.call (.map bo) (.ok v)] }
      | .error e => (.error (.xrt e), { s with log := s.log ++ [.call (.map bo) (.error e)] }) := by
  simp only [bind_apply, map, call]
  cases rt.respond (calls s.log) (.map bo) <;> rfl

@[simp] theorem sync_to_bind {β : Type} (rt : Runtime) (bo : Nat) (f : Unit → Host β) (s : St) :
    (sync rt bo .XCL_BO_SYNC_BO_TO_DEVICE >>= f) s =
      match rt.respond (calls s.log) (.sync bo .XCL_BO_SYNC_BO_TO_DEVICE) with
      | .ok v => f () { s with log := s.log ++ [.call (.sync bo .XCL_BO_SYNC_BO_TO_DEVICE) (.ok v)] }
      | .error e => (.error (.xrt e),
          { s with log := s.log ++ [.call (.sync bo .XCL_BO_SYNC_BO_TO_DEVICE) (.error e)] }) := by
  simp only [bind_apply, sync, call]
  cases rt.respond (calls s.log) (.sync bo .XCL_BO_SYNC_BO_TO_DEVICE) <;> rfl

@[simp] theorem sync_from_bind {β : Type} (rt : Runtime) (bo : Nat) (f : Unit → Host β) (s : St) :
    (sync rt bo .XCL_BO_SYNC_BO_FROM_DEVICE >>= f) s =
      match rt.respond (calls s.log) (.sync bo .XCL_BO_SYNC_BO_FROM_DEVICE) with
      | .ok v => f () { s with
          log := s.log ++ [.call (.sync bo .XCL_BO_SYNC_BO_FROM_DEVICE) (.ok v)],
          mem := Function.update s.mem bo (rt.output (pulls (calls s.log))) }
      | .error e => (.error (.xrt e),
          { s with log := s.log ++ [.call (.sync bo .XCL_BO_SYNC_BO_FROM_DEVICE) (.error e)] }) := by
  simp only [bind_apply, sync, call]
  cases rt.respond (calls s.log) (.sync bo .XCL_BO_SYNC_BO_FROM_DEVICE) <;> rfl

@[simp] theorem createTestData_bind {β : Type} (op : Int → Int → Int) (in0 in1 : Nat)
    (f : (Nat → Int) → Host β) (s : St) :
    (createTestData op in0 in1 >>= f) s =
      f (testDataLoop op in0 in1 DATA_SIZE s.mem).2
        { s with mem := (testDataLoop op in0 in1 DATA_SIZE s.mem).1,
                 log := s.log ++ [.populate in0 in1] } := rfl

@[simp] theorem hostMemcmp_bind {β : Type} (lhs : Nat) (ref : Nat → Int) (count : Nat)
    (f : Int → Host β) (s : St) :
    (hostMemcmp lhs ref count >>= f) s =
      f (memcmp (s.mem lhs) ref count)
        { s with log := s.log ++ [.memcmp lhs count (memcmp (s.mem lhs) ref count)] } := rfl

@[simp] theorem throw_bind {α β : Type} (what : String) (f : α → Host β) (s : St) :
    ((throw_runtime_error what : Host α) >>= f) s = (.error (.runtime_error what), s) := rfl

@[simp] theorem pure_bind_apply {α β : Type} (a : α) (f : α → Host β) (s : St) :
    ((pure a : Host α) >>= f) s = f a s := rfl

@[simp] theorem pure_apply {α : Type} (a : α) (s : St) : (pure a : Host α) s = (.ok a, s) := rfl

/-! ## 32-bit arithmetic -/

theorem wrap32_of_range (x : Int) (h0 : -2 ^ 31 ≤ x) (h1 : x < 2 ^ 31) : wrap32 x = x := by
  unfold wrap32
  omega

theorem wrap32_add_index (i : Nat) (hi : i < DATA_SIZE) : wrap32 ((i : Int) + i) = 2 * i := by
  unfold DATA_SIZE at hi
  rw [wrap32_of_range] <;> omega

theorem index_sq_lt (i : Nat) (hi : i < DATA_SIZE) : (i : Int) * i < 2 ^ 31 := by
  unfold DATA_SIZE at hi
  have h : i * i ≤ 4095 * 4095 := Nat.mul_le_mul (by omega) (by omega)
  have h2 : ((i * i : Nat) : Int) ≤ 4095 * 4095 := by exact_mod_cast h
  push_cast at h2
  omega

theorem wrap32_mul_index (i : Nat) (hi : i < DATA_SIZE) : wrap32 ((i : Int) * i) = i * i := by
  have h := index_sq_lt i hi
  have h0 : (0 : Int) ≤ (i : Int) * i := by positivity
  rw [wrap32_of_range] <;> omega

/-! ## The test-data loop -/

theorem testDataStep_fst_same (op : Int → Int → Int) (in0 in1 : Nat)
    (st : (Nat → Nat → Int) × (Nat → Int)) (i : Nat) :
    (testDataStep op in0 in1 st i).1 in0 i = i ∧ (testDataStep op in0 in1 st i).1 in1 i = i := by
  unfold testDataStep
  by_cases h : in0 = in1
  · subst h; simp
  · simp [Function.update_noteq h]

theorem testDataStep_fst_other (op : Int → Int → Int) (in0 in1 : Nat)
    (st : (Nat → Nat → Int) × (Nat → Int)) (i b j : Nat) (h : j ≠ i) :
    (testDataStep op in0 in1 st i).1 b j = st.1 b j := by
  unfold testDataStep
  by_cases h1 : b = in1
  · subst h1
    by_cases h0 : b = in0
    · subst h0; simp [Function.update_noteq h]
    · simp [Function.update_noteq h, Function.update_noteq h0]
  · by_cases h0 : b = in0
    · subst h0; simp [Function.update_noteq h, Function.update_noteq h1]
    · simp [Function.update_noteq h0, Function.update_noteq h1]

theorem testDataStep_snd (op : Int → Int → Int) (in0 in1 : Nat)
    (st : (Nat → Nat → Int) × (Nat → Int)) (i : Nat) :
    (testDataStep op in0 in1 st i).2 = Function.update st.2 i (wrap32 (op i i)) := by
  have h := testDataStep_fst_same op in0 in1 st i
  unfold testDataStep at h ⊢
  simp only at h ⊢
  rw [h.1, h.2]

theorem testDataLoop_zero (op : Int → Int → Int) (in0 in1 : Nat) (mem : Nat → Nat → Int) :
    testDataLoop op in0 in1 0 mem = (mem, fun _ => 0) := by
  unfold testDataLoop
  rfl

theorem testDataLoop_succ (op : Int → Int → Int) (in0 in1 n : Nat) (mem : Nat → Nat → Int) :
    testDataLoop op in0 in1 (n + 1) mem =
      testDataStep op in0 in1 (testDataLoop op in0 in1 n mem) n := by
  unfold testDataLoop
  rw [List.range_succ, List.foldl_append]
  rfl

theorem testDataLoop_snd_apply (op : Int → Int → Int) (in0 in1 n : Nat) (mem : Nat → Nat → Int)
    (i : Nat) :
    (testDataLoop op in0 in1 n mem).2 i = if i < n then wrap32 (op i i) else 0 := by
  induction n with
  | zero => simp [testDataLoop_zero]
  | succ n ih =>
    rw [testDataLoop_succ, testDataStep_snd]
    by_cases h : i = n
    · subst h; simp
    · rw [Function.update_noteq h, ih]
      have : (i < n + 1) = (i < n) := by
        apply propext; constructor <;> intro h' <;> omega
      simp only [this]

theorem testDataLoop_fst_apply (op : Int → Int → Int) (in0 in1 n : Nat) (mem : Nat → Nat → Int)
    (i : Nat) (hi : i < n) :
    (testDataLoop op in0 in1 n mem).1 in0 i = i ∧ (testDataLoop op in0 in1 n mem).1 in1 i = i := by
  induction n with
  | zero => omega
  | succ n ih =>
    rw [testDataLoop_succ]
    by_cases h : i = n
    · subst h; exact testDataStep_fst_same _ _ _ _ _
    · rw [testDataStep_fst_other _ _ _ _ _ _ _ h, testDataStep_fst_other _ _ _ _ _ _ _ h]
      exact ih (by omega)

theorem testDataLoop_snd (op : Int → Int → Int) (in0 in1 : Nat) (mem : Nat → Nat → Int) :
    (testDataLoop op in0 in1 DATA_SIZE mem).2 = reference op := by
  funext i
  rw [testDataLoop_snd_apply]
  rfl

/-! ## `memcmp` -/

theorem byteOf_cast (x : Int) (j : Nat) : (byteOf x j : Int) = x % 2 ^ 32 / 256 ^ j % 256 := by
  unfold byteOf
  exact Int.toNat_of_nonneg (Int.emod_nonneg _ (by norm_num))

theorem emod32_eq_of_bytes (x y : Int) (h : ∀ j < 4, byteOf x j = byteOf y j) :
    x % 2 ^ 32 = y % 2 ^ 32 := by
  have hx0 : 0 ≤ x % 2 ^ 32 := Int.emod_nonneg _ (by norm_num)
  have hx1 : x % 2 ^ 32 < 2 ^ 32 := Int.emod_lt_of_pos _ (by norm_num)
  have hy0 : 0 ≤ y % 2 ^ 32 := Int.emod_nonneg _ (by norm_num)
  have hy1 : y % 2 ^ 32 < 2 ^ 32 := Int.emod_lt_of_pos _ (by norm_num)
  have e0 := congrArg (Nat.cast : Nat → Int) (h 0 (by norm_num))
  have e1 := congrArg (Nat.cast : Nat → Int) (h 1 (by norm_num))
  have e2 := congrArg (Nat.cast : Nat → Int) (h 2 (by norm_num))
  have e3 := congrArg (Nat.cast : Nat → Int) (h 3 (by norm_num))
  rw [byteOf_cast, byteOf_cast] at e0 e1 e2 e3
  generalize x % 2 ^ 32 = a at hx0 hx1 e0 e1 e2 e3 ⊢
  generalize y % 2 ^ 32 = b at hy0 hy1 e0 e1 e2 e3 ⊢
  norm_num at e0 e1 e2 e3 hx1 hy1
  omega

theorem byteOf_congr (x y : Int) (h : x % 2 ^ 32 = y % 2 ^ 32) (j : Nat) :
    byteOf x j = byteOf y j := by
  unfold byteOf
  rw [h]

theorem memcmpFrom_eq_zero (lhs rhs : Nat → Int) (count k : Nat) :
    memcmpFrom lhs rhs k count = 0 ↔ ∀ j, k ≤ j → j < k + count → byteAt lhs j = byteAt rhs j := by
  induction count generalizing k with
  | zero =>
    simp only [memcmpFrom, true_iff]
    intro j h1 h2
    omega
  | succ n ih =>
    unfold memcmpFrom
    split
    · rename_i hlt
      constructor
      · intro h; omega
      · intro h
        have := h k (le_refl _) (by omega)
        omega
    · split
      · rename_i hlt
        constructor
        · intro h; omega
        · intro h
          have := h k (le_refl _) (by omega)
          omega
      · rename_i h1 h2
        rw [ih]
        constructor
        · intro h j hj1 hj2
          by_cases hjk : j = k
          · subst hjk; omega
          · exact h j (by omega) (by omega)
        · intro h j hj1 hj2
          exact h j (by omega) (by omega)

/-- `memcmp` over `4 * m` bytes sees exactly the first `m` ints. -/
theorem memcmp_eq_zero_iff (lhs rhs : Nat → Int) (m : Nat) :
    memcmp lhs rhs (sizeof_int * m) = 0 ↔ ∀ i < m, lhs i % 2 ^ 32 = rhs i % 2 ^ 32 := by
  unfold memcmp
  rw [memcmpFrom_eq_zero]
  unfold byteAt sizeof_int
  constructor
  · intro h i hi
    apply emod32_eq_of_bytes
    intro j hj
    have := h (4 * i + j) (by omega) (by omega)
    have e1 : (4 * i + j) / 4 = i := by omega
    have e2 : (4 * i + j) % 4 = j := by omega
    rw [e1, e2] at this
    exact this
  · intro h j _ hj
    apply byteOf_congr
    apply h
    omega

theorem memcmp_congr (a b ref : Nat → Int) (m : Nat) (h : ∀ i < m, a i = b i) :
    memcmp a ref (sizeof_int * m) = memcmp b ref (sizeof_int * m) := by
  unfold memcmp
  suffices H : ∀ count k, k + count ≤ sizeof_int * m →
      memcmpFrom a ref k count = memcmpFrom b ref k count from H _ 0 (by omega)
  intro count
  induction count with
  | zero => intro k _; rfl
  | succ n ih =>
    intro k hk
    have e : byteAt a k = byteAt b k := by
      unfold byteAt
      rw [h]
      unfold sizeof_int at hk ⊢
      omega
    unfold memcmpFrom
    rw [e, ih (k + 1) (by omega)]

theorem DATA_SIZE_bytes : DATA_SIZE = sizeof_int * 1024 := by decide

theorem createTestData_bind2 {β : Type} (op : Int → Int → Int) (in0 in1 : Nat)
    (f : (Nat → Int) → Host β) (s : St) :
    (createTestData op in0 in1 >>= f) s =
      f (reference op)
        { s with mem := (testDataLoop op in0 in1 DATA_SIZE s.mem).1,
                 log := s.log ++ [.populate in0 in1] } := by
  rw [createTestData_bind, testDataLoop_snd]

/-! ## Two runs against runtimes that differ only in the pulled data -/

theorem rel_pure {α : Type} (a : α) : HostRel (pure a : Host α) (pure a) :=
  fun _ _ h => ⟨rfl, h⟩

theorem rel_bind {α β : Type} {m n : Host α} {f g : α → Host β}
    (h1 : HostRel m n) (h2 : ∀ a, HostRel (f a) (g a)) : HostRel (m >>= f) (n >>= g) := by
  intro s t hst
  obtain ⟨e1, e2⟩ := h1 s t hst
  rw [bind_apply, bind_apply]
  rcases hm : m s with ⟨_ | a, s1⟩ <;> rcases hn : n t with ⟨_ | b, t1⟩ <;>
    rw [hm, hn] at e1 e2 <;> simp only at e1 e2 ⊢
  · exact ⟨by rw [Except.error.inj e1], e2⟩
  · exact absurd e1 (by simp)
  · exact absurd e1 (by simp)
  · rw [Except.ok.inj e1]
    exact h2 b s1 t1 e2

theorem rel_ite {α : Type} (c : Prop) [Decidable c] {m n m1 n1 : Host α}
    (h1 : HostRel m n) (h2 : HostRel m1 n1) :
    HostRel (if c then m else m1) (if c then n else n1) := by
  split
  · exact h1
  · exact h2

theorem rel_cout (text : String) : HostRel (cout text) (cout text) := by
  intro s t h
  exact ⟨rfl, h.1, by simp only [MultipleKernels.cout, h.2.1], h.2.2⟩

theorem rel_throw {α : Type} (what : String) :
    HostRel (throw_runtime_error what : Host α) (throw_runtime_error what) :=
  fun _ _ h => ⟨rfl, h⟩

theorem rel_call {rt rt2 : Runtime} (hr : rt2.respond = rt.respond) (op : Op) :
    HostRel (call rt op) (call rt2 op) := by
  rintro ⟨sl, sout, sm⟩ ⟨tl, tout, tm⟩ ⟨h1, h2, h3⟩
  simp only at h1 h2 h3
  subst h1 h2
  unfold MultipleKernels.call
  simp only [hr]
  cases rt.respond (calls sl) op <;> exact ⟨rfl, rfl, rfl, h3⟩

theorem rel_map {rt rt2 : Runtime} (hr : rt2.respond = rt.respond) (bo : Nat) :
    HostRel (map rt bo) (map rt2 bo) :=
  rel_bind (rel_call hr _) (fun _ => rel_pure _)

theorem memAgree_update {m : Nat} {a b : Nat → Nat → Int} (h : MemAgree m a b) (p : Nat)
    {x y : Nat → Int} (hxy : ∀ i, i < m → x i = y i) :
    MemAgree m (Function.update a p x) (Function.update b p y) := by
  intro q i hi
  by_cases hq : q = p
  · subst hq; simpa using hxy i hi
  · simpa [Function.update_noteq hq] using h q i hi

theorem rel_sync {rt rt2 : Runtime} (hr : rt2.respond = rt.respond)
    (ho : ∀ k i, i < 1024 → rt2.output k i = rt.output k i) (bo : Nat) (dir : Direction) :
    HostRel (sync rt bo dir) (sync rt2 bo dir) := by
  intro s t h
  have hc := rel_call hr (.sync bo dir) s t h
  unfold MultipleKernels.sync
  rcases hm : MultipleKernels.call rt (.sync bo dir) s with ⟨_ | a, s1⟩ <;>
    rcases hn : MultipleKernels.call rt2 (.sync bo dir) t with ⟨_ | b, t1⟩ <;>
    rw [hm, hn] at hc <;> simp only at hc ⊢
  · exact ⟨by rw [Except.error.inj hc.1], hc.2⟩
  · exact absurd hc.1 (by simp)
  · exact absurd hc.1 (by simp)
  · cases dir
    · exact ⟨rfl, hc.2⟩
    · refine ⟨rfl, hc.2.1, hc.2.2.1, ?_⟩
      apply memAgree_update hc.2.2.2
      intro i hi
      rw [h.1, ho _ _ hi]

theorem testDataStep_agree (op : Int → Int → Int) (in0 in1 i m : Nat)
    (a b : (Nat → Nat → Int) × (Nat → Int)) (h : MemAgree m a.1 b.1) :
    MemAgree m (testDataStep op in0 in1 a i).1 (testDataStep op in0 in1 b i).1 := by
  unfold testDataStep
  apply memAgree_update
  · apply memAgree_update h
    intro j hj
    by_cases hji : j = i
    · subst hji; simp
    · simpa [Function.update_noteq hji] using h in0 j hj
  · intro j hj
    by_cases hji : j = i
    · subst hji; simp
    · simp only [Function.update_noteq hji]
      by_cases h01 : in1 = in0
      · subst h01; simp [Function.update_noteq hji, h in1 j hj]
      · simp [Function.update_noteq h01, h in1 j hj]

theorem testDataLoop_agree (op : Int → Int → Int) (in0 in1 n m : Nat)
    (a b : Nat → Nat → Int) (h : MemAgree m a b) :
    MemAgree m (testDataLoop op in0 in1 n a).1 (testDataLoop op in0 in1 n b).1 := by
  induction n with
  | zero => rw [testDataLoop_zero, testDataLoop_zero]; exact h
  | succ n ih =>
    rw [testDataLoop_succ, testDataLoop_succ]
    exact testDataStep_agree _ _ _ _ _ _ _ ih

theorem rel_createTestData (op : Int → Int → Int) (in0 in1 : Nat) :
    HostRel (createTestData op in0 in1) (createTestData op in0 in1) := by
  rintro ⟨sl, sout, sm⟩ ⟨tl, tout, tm⟩ ⟨h1, h2, h3⟩
  simp only at h1 h2 h3
  subst h1 h2
  have hag := testDataLoop_agree op in0 in1 DATA_SIZE 1024 sm tm h3
  have hsnd : (testDataLoop op in0 in1 DATA_SIZE sm).2 = (testDataLoop op in0 in1 DATA_SIZE tm).2 := by
    rw [testDataLoop_snd, testDataLoop_snd]
  unfold MultipleKernels.createTestData
  simp only
  rw [hsnd]
  exact ⟨rfl, rfl, rfl, hag⟩

theorem rel_hostMemcmp (lhs : Nat) (ref : Nat → Int) :
    HostRel (hostMemcmp lhs ref DATA_SIZE) (hostMemcmp lhs ref DATA_SIZE) := by
  rintro ⟨sl, sout, sm⟩ ⟨tl, tout, tm⟩ ⟨h1, h2, h3⟩
  simp only at h1 h2 h3
  subst h1 h2
  have e : memcmp (sm lhs) ref DATA_SIZE = memcmp (tm lhs) ref DATA_SIZE := by
    rw [DATA_SIZE_bytes]
    exact memcmp_congr _ _ _ _ (fun i hi => h3 lhs i hi)
  unfold MultipleKernels.hostMemcmp
  simp only
  rw [e]
  exact ⟨rfl, rfl, rfl, h3⟩

set_option maxRecDepth 10000 in
theorem mainBody_rel {rt rt2 : Runtime} (hr : rt2.respond = rt.respond)
    (ho : ∀ k i, i < 1024 → rt2.output k i = rt.output k i) (file : String) :
    HostRel (mainBody rt file) (mainBody rt2 file) := by
  unfold mainBody
  repeat (first
    | (apply rel_bind <;> [skip; intro _])
    | apply rel_ite
    | exact rel_cout _
    | exact rel_call hr _
    | exact rel_map hr _
    | exact rel_sync hr ho _ _
    | exact rel_createTestData _ _ _
    | exact rel_hostMemcmp _ _
    | exact rel_throw _
    | exact rel_pure _)

/-- The outcome does not depend on the pulled data beyond the first 1024 ints
of each output. -/
theorem main_congr {rt rt2 : Runtime} (hr : rt2.respond = rt.respond)
    (ho : ∀ k i, i < 1024 → rt2.output k i = rt.output k i) (args : List String) :
    main rt2 args = main rt args := by
  unfold main
  cases args[1]? with
  | none => rfl
  | some file =>
    simp only
    split
    · rfl
    · have h := mainBody_rel hr ho file St.init St.init ⟨rfl, rfl, fun _ _ _ => rfl⟩
      rcases hm : mainBody rt file St.init with ⟨_ | a, s1⟩ <;>
        rcases hn : mainBody rt2 file St.init with ⟨_ | b, t1⟩ <;>
        rw [hm, hn] at h <;> simp only [finish] at h ⊢
      · rw [Except.error.inj h.1, h.2.1, h.2.2.1]
      · exact absurd h.1 (by simp)
      · exact absurd h.1 (by simp)
      · rw [Except.ok.inj h.1, h.2.1, h.2.2.1]

set_option maxHeartbeats 4000000 in
set_option maxRecDepth 4000 in
theorem mainBody_shape_aux (rt : Runtime) (file : String) (c0 c1 : Int)
    (hc0 : memcmp (rt.output 0) (reference fun a b => a + b) DATA_SIZE = c0)
    (hc1 : memcmp (rt.output 1) (reference fun a b => a * b) DATA_SIZE = c1) :
    Shape rt file c0 c1 (finish (mainBody rt file St.init)) := by
  unfold mainBody St.init
  repeat (first
    | rw [cout_bind]
    | rw [createTestData_bind2]
    | rw [pure_bind_apply]
    | (first | rw [call_bind] | rw [map_bind] | rw [sync_to_bind] | rw [sync_from_bind])
      dsimp only [List.nil_append, List.cons_append]
      split <;> [skip;
        exact Or.inl ⟨_, _, _, rfl, rfl, rfl, rfl, Nat.le_of_ble_eq_true rfl, by assumption⟩]
    | rw [hostMemcmp_bind]
      dsimp only [List.nil_append, List.cons_append]
      rw [Function.update_same]
      simp only [calls, pulls, Nat.zero_add]
      (first | rw [hc0] | rw [hc1])
      split <;> [(rw [throw_bind]; first
        | exact Or.inr (Or.inl ⟨by assumption, rfl, rfl, rfl, Nat.le_of_ble_eq_true rfl⟩)
        | exact Or.inr (Or.inr (Or.inl ⟨rfl, by assumption,
            rfl, rfl, rfl, Nat.le_of_ble_eq_true rfl⟩)));
        (rename_i hzero; have hzero := Decidable.of_not_not hzero; subst hzero)] )
  rw [pure_apply]
  exact Or.inr (Or.inr (Or.inr ⟨rfl, rfl, rfl, rfl, rfl⟩))

theorem mainBody_shape (rt : Runtime) (file : String) :
    Shape rt file (cmp0 rt) (cmp1 rt) (finish (mainBody rt file St.init)) :=
  mainBody_shape_aux rt file _ _ rfl rfl

/-! ## Runs with a well-formed command line -/

theorem main_two_args (rt : Runtime) (prog file : String) :
    main rt [prog, file] = finish (mainBody rt file St.init) := rfl

theorem load_line_ne (file : String) : "TEST PASSED\n" ≠ "Load the xclbin " ++ file ++ "\n" := by
  intro h
  have h2 := congrArg String.data h
  simp only [String.data_append] at h2
  have h3 := congrArg List.head? h2
  simp at h3

theorem not_passed_of_take (file : String) (m : Nat) (hm : m ≤ 12) :
    "TEST PASSED\n" ∉ (fullOut file).take m := by
  intro h
  have h2 : "TEST PASSED\n" ∈ (fullOut file).take 12 :=
    List.take_subset_take_left _ hm h
  have hl := load_line_ne file
  simp only [fullOut, List.take_succ_cons, List.take_zero, List.mem_cons, List.mem_singleton,
    List.not_mem_nil, or_false] at h2
  repeat (first
    | exact hl h2
    | exact absurd h2 (by decide)
    | (rcases h2 with h2 | h2; first | exact hl h2 | exact absurd h2 (by decide)))

theorem passed_mem_fullOut (file : String) : "TEST PASSED\n" ∈ fullOut file := by
  simp [fullOut]

/-- The four ways a run with one argument can end. -/
theorem run_cases (rt : Runtime) (prog file : String) : ∃ v : Nat → Nat,
    (∃ n op rep e,
        (fullLog file v 0 0)[n]? = some (.call op rep) ∧
        (main rt [prog, file]).log = (fullLog file v 0 0).take n ++ [.call op (.error e)] ∧
        (main rt [prog, file]).exit = .terminated (.xrt e) ∧
        "TEST PASSED\n" ∉ (main rt [prog, file]).out ∧
        rt.respond (calls ((fullLog file v 0 0).take n)) op = .error e)
    ∨ (cmp0 rt ≠ 0 ∧
        (main rt [prog, file]).log = (fullLog file v (cmp0 rt) 0).take 19 ∧
        (main rt [prog, file]).exit = .terminated validationError ∧
        "TEST PASSED\n" ∉ (main rt [prog, file]).out)
    ∨ (cmp0 rt = 0 ∧ cmp1 rt ≠ 0 ∧
        (main rt [prog, file]).log = fullLog file v 0 (cmp1 rt) ∧
        (main rt [prog, file]).exit = .terminated validationError ∧
        "TEST PASSED\n" ∉ (main rt [prog, file]).out)
    ∨ (cmp0 rt = 0 ∧ cmp1 rt = 0 ∧
        (main rt [prog, file]).log = fullLog file v 0 0 ∧
        (main rt [prog, file]).exit = .returned 0 ∧
        (main rt [prog, file]).out = fullOut file) := by
  rw [main_two_args]
  refine ⟨values (finish (mainBody rt file St.init)).log, ?_⟩
  rcases mainBody_shape rt file with ⟨op, rep, e, h1, h2, h3, h4, h5, h6⟩ | ⟨h0, h2, h3, h4, h5⟩ |
    ⟨h0, h1, h2, h3, h4, h5⟩ | ⟨h0, h1, h2, h3, h4⟩
  · refine Or.inl ⟨_, op, rep, e, h1, h2, h3, ?_, h6⟩
    rw [h4]; exact not_passed_of_take _ _ h5
  · refine Or.inr (Or.inl ⟨h0, h2, h3, ?_⟩)
    rw [h4]; exact not_passed_of_take _ _ h5
  · refine Or.inr (Or.inr (Or.inl ⟨h0, h1, h2, h3, ?_⟩))
    rw [h4]; exact not_passed_of_take _ _ h5
  · exact Or.inr (Or.inr (Or.inr ⟨h0, h1, h2, h3, h4⟩))

/-! ## Logs cut short -/

theorem allocated_append (l1 l2 : List Step) :
    allocated (l1 ++ l2) = allocated l1 ++ allocated l2 := by
  induction l1 with
  | nil => rfl
  | cons a l ih =>
    rcases a with ⟨op, rep⟩ | _ | _
    · cases op <;> cases rep <;> simp [allocated, ih]
    · simp [allocated, ih]
    · simp [allocated, ih]

theorem summarize_push (pre : List Step) (st : Step) :
    summarize (pre ++ [st]) = (summarize pre).push st := by
  simp only [summarize, Summary.push, List.filter_append, allocated_append, List.length_append,
    List.any_append]

theorem scanAll_split {P : Summary → Step → Prop} :
    ∀ (L acc : List Step), ScanAll P (summarize acc) L →
      ∀ pre st post, L = pre ++ st :: post → P (summarize (acc ++ pre)) st := by
  intro L
  induction L with
  | nil =>
    intro acc _ pre st post h
    simp at h
  | cons a L ih =>
    intro acc hall pre st post h
    cases pre with
    | nil =>
      simp only [List.nil_append, List.cons.injEq] at h
      rw [List.append_nil, ← h.1]
      exact hall.1
    | cons b pre =>
      simp only [List.cons_append, List.cons.injEq] at h
      have h2 := hall.2
      rw [← summarize_push] at h2
      have := ih (acc ++ [a]) h2 pre st post h.2
      rw [← h.1]
      simpa using this

theorem scanAll_split_nil {P : Summary → Step → Prop} {L : List Step}
    (h : ScanAll P (summarize []) L) :
    ∀ pre st post, L = pre ++ st :: post → P (summarize pre) st := by
  intro pre st post hL
  simpa using scanAll_split L [] h pre st post hL

/-- A property of every step relative to the steps before it, insensitive to
the reply of a call, passes from the nominal sequence to every cut of it. -/
theorem cutOf_forall_split {Q : List Step → Step → Prop} {L log : List Step}
    (hQ : ∀ pre op rep e, Q pre (.call op rep) → Q pre (.call op (.error e)))
    (hL : ∀ pre st post, L = pre ++ st :: post → Q pre st) (h : CutOf L log) :
    ∀ pre st post, log = pre ++ st :: post → Q pre st := by
  intro pre st post hlog
  obtain ⟨n, h | ⟨op, rep, e, hn, h⟩⟩ := h
  · have e : L = pre ++ st :: (post ++ L.drop n) := by
      conv_lhs => rw [← List.take_append_drop n L, ← h, hlog]
      simp
    exact hL _ _ _ e
  · have hlt : n < L.length := by
      by_contra hc
      rw [List.getElem?_eq_none (by omega)] at hn
      exact absurd hn (by simp)
    rw [List.getElem?_eq_getElem hlt] at hn
    simp only [Option.some.injEq] at hn
    rcases List.eq_nil_or_concat post with hp | ⟨post1, y, hp⟩
    · subst hp
      rw [h] at hlog
      have h2 := List.append_inj' hlog (by simp)
      simp only [List.cons.injEq, and_true] at h2
      rw [← h2.1, ← h2.2]
      apply hQ _ _ rep
      apply hL _ _ (L.drop (n + 1))
      rw [← hn, ← List.drop_eq_getElem_cons hlt, List.take_append_drop]
    · rw [List.concat_eq_append] at hp
      subst hp
      rw [h] at hlog
      have h2 : L.take n ++ [Step.call op (Reply.error e)] = (pre ++ st :: post1) ++ [y] := by
        rw [hlog]; simp
      have h3 := List.append_inj' h2 (by simp)
      have e2 : L = pre ++ st :: (post1 ++ L.drop n) := by
        conv_lhs => rw [← List.take_append_drop n L, h3.1]
        simp
      exact hL _ _ _ e2

theorem main_cutOf (rt : Runtime) (prog file : String) :
    ∃ v c0 c1, CutOf (fullLog file v c0 c1) (main rt [prog, file]).log := by
  obtain ⟨v, h⟩ := run_cases rt prog file
  rcases h with ⟨n, op, rep, e, h1, h2, -⟩ | ⟨-, h2, -⟩ | ⟨-, -, h2, -⟩ | ⟨-, -, h2, -⟩
  · exact ⟨v, 0, 0, n, Or.inr ⟨op, rep, e, h1, h2⟩⟩
  · exact ⟨v, cmp0 rt, 0, 19, Or.inl h2⟩
  · exact ⟨v, 0, cmp1 rt, 36, Or.inl (by rw [h2]; rfl)⟩
  · exact ⟨v, 0, 0, 36, Or.inl (by rw [h2]; rfl)⟩

theorem main_log_cases (rt : Runtime) (args : List String) :
    (main rt args).log = [] ∨ ∃ prog file, args = [prog, file] := by
  match args with
  | [] => exact Or.inl rfl
  | [_] => exact Or.inl rfl
  | [a, b] => exact Or.inr ⟨a, b, rfl⟩
  | _ :: _ :: _ :: _ => exact Or.inl (by simp [main])

theorem main_cutOf_any (rt : Runtime) (args : List String) :
    ∃ file v c0 c1, CutOf (fullLog file v c0 c1) (main rt args).log := by
  rcases main_log_cases rt args with h | ⟨prog, file, h⟩
  · exact ⟨"", fun _ => 0, 0, 0, 0, Or.inl (by rw [h]; rfl)⟩
  · subst h
    obtain ⟨v, c0, c1, h⟩ := main_cutOf rt prog file
    exact ⟨file, v, c0, c1, h⟩

theorem fullLog_ok (file : String) (v : Nat → Nat) :
    ∀ s ∈ fullLog file v 0 0, s.failed = false := by
  simp [fullLog, jobLog, Step.failed]

theorem last_failed {log A pre post : List Step} {x st : Step}
    (hA : ∀ s ∈ A, s.failed = false) (h1 : log = A ++ [x]) (h2 : log = pre ++ st :: post)
    (hst : st.failed = true) : post = [] ∧ pre = A ∧ st = x := by
  rcases List.eq_nil_or_concat post with hp | ⟨post1, y, hp⟩
  · subst hp
    have h3 := List.append_inj' (h1.symm.trans h2) (by simp)
    simp only [List.cons.injEq, and_true] at h3
    exact ⟨rfl, h3.1.symm, h3.2.symm⟩
  · rw [List.concat_eq_append] at hp
    subst hp
    have h3 : A ++ [x] = (pre ++ st :: post1) ++ [y] := by
      rw [← h1, h2]; simp
    have h4 := (List.append_inj' h3 (by simp)).1
    have := hA st (by rw [h4]; simp)
    rw [this] at hst
    exact absurd hst (by decide)

/-- A failing step is the last step of the run, nothing failed before it, the
run ends abnormally and never prints the success line. -/
theorem failure_final (rt : Runtime) (prog file : String) (pre post : List Step) (st : Step)
    (hlog : (main rt [prog, file]).log = pre ++ st :: post) (hst : st.failed = true) :
    post = [] ∧ (∀ s ∈ pre, s.failed = false) ∧ "TEST PASSED\n" ∉ (main rt [prog, file]).out ∧
    ((∃ op e, st = .call op (.error e) ∧
        rt.respond (calls pre) op = .error e ∧
        (main rt [prog, file]).exit = .terminated (.xrt e)) ∨
     (∃ b n c, st = .memcmp b n c ∧ c ≠ 0 ∧
        (main rt [prog, file]).exit = .terminated validationError)) := by
  obtain ⟨v, h⟩ := run_cases rt prog file
  rcases h with ⟨n, op, rep, e, -, h2, h3, h4, h5⟩ | ⟨h0, h2, h3, h4⟩ | ⟨-, h1, h2, h3, h4⟩ |
    ⟨-, -, h2, -⟩
  · have hA : ∀ s ∈ (fullLog file v 0 0).take n, s.failed = false :=
      fun s hs => fullLog_ok file v s (List.mem_of_mem_take hs)
    obtain ⟨e1, e2, e3⟩ := last_failed hA h2 hlog hst
    subst e1 e2 e3
    exact ⟨rfl, hA, h4, Or.inl ⟨op, e, rfl, h5, h3⟩⟩
  · have hA : ∀ s ∈ (fullLog file v 0 0).take 18, s.failed = false :=
      fun s hs => fullLog_ok file v s (List.mem_of_mem_take hs)
    have h2b : (main rt [prog, file]).log =
        (fullLog file v 0 0).take 18 ++ [.memcmp (v 8) DATA_SIZE (cmp0 rt)] := by
      rw [h2]; rfl
    obtain ⟨e1, e2, e3⟩ := last_failed hA h2b hlog hst
    subst e1 e2 e3
    exact ⟨rfl, hA, h4, Or.inr ⟨_, _, _, rfl, h0, h3⟩⟩
  · have hA : ∀ s ∈ (fullLog file v 0 0).take 35, s.failed = false :=
      fun s hs => fullLog_ok file v s (List.mem_of_mem_take hs)
    have h2b : (main rt [prog, file]).log =
        (fullLog file v 0 0).take 35 ++ [.memcmp (v 23) DATA_SIZE (cmp1 rt)] := by
      rw [h2]; rfl
    obtain ⟨e1, e2, e3⟩ := last_failed hA h2b hlog hst
    subst e1 e2 e3
    exact ⟨rfl, hA, h4, Or.inr ⟨_, _, _, rfl, h1, h3⟩⟩
  · have := fullLog_ok file v st (by rw [← h2, hlog]; simp)
    rw [this] at hst
    exact absurd hst (by decide)

/-- A run in which no XRT call fails ends according to the two comparisons
alone. -/
theorem run_without_call_failure (rt : Runtime) (prog file : String)
    (hok : ∀ s ∈ (main rt [prog, file]).log, ∀ op e, s ≠ .call op (.error e)) :
    (cmp0 rt = 0 ∧ cmp1 rt = 0 ∧ (main rt [prog, file]).exit = .returned 0 ∧
      (main rt [prog, file]).out = fullOut file ∧
      ∃ v, (main rt [prog, file]).log = fullLog file v 0 0) ∨
    ((cmp0 rt ≠ 0 ∨ cmp1 rt ≠ 0) ∧ (main rt [prog, file]).exit = .terminated validationError ∧
      "TEST PASSED\n" ∉ (main rt [prog, file]).out) := by
  obtain ⟨v, h⟩ := run_cases rt prog file
  rcases h with ⟨n, op, rep, e, -, h2, -⟩ | ⟨h0, -, h3, h4⟩ | ⟨-, h1, -, h3, h4⟩ |
    ⟨h0, h1, h2, h3, h4⟩
  · exact absurd rfl (hok (.call op (.error e)) (by rw [h2]; simp) op e)
  · exact Or.inr ⟨Or.inl h0, h3, h4⟩
  · exact Or.inr ⟨Or.inr h1, h3, h4⟩
  · exact Or.inl ⟨h0, h1, h3, h4, v, h2⟩

/-- On a runtime that never answers with an error, no call of the run fails. -/
theorem no_call_failure (rt : Runtime) (prog file : String)
    (hr : ∀ history op e, rt.respond history op ≠ .error e) :
    ∀ s ∈ (main rt [prog, file]).log, ∀ op e, s ≠ .call op (.error e) := by
  intro s hs op e hse
  subst hse
  obtain ⟨pre, post, hlog⟩ := List.append_of_mem hs
  obtain ⟨-, -, -, h | h⟩ := failure_final rt prog file pre post _ hlog rfl
  · obtain ⟨op2, e2, h1, h2, -⟩ := h
    exact hr _ _ _ h2
  · obtain ⟨b, n, c, h1, -⟩ := h
    exact absurd h1 (by simp)

/-! ## What the comparisons see -/

theorem reference_add (i : Nat) (hi : i < DATA_SIZE) :
    reference (fun a b => a + b) i = 2 * (i : Int) := by
  unfold reference
  rw [if_pos hi]
  exact wrap32_add_index i hi

theorem reference_mul (i : Nat) (hi : i < DATA_SIZE) :
    reference (fun a b => a * b) i = (i : Int) * i := by
  unfold reference
  rw [if_pos hi]
  exact wrap32_mul_index i hi

theorem cmp0_eq_zero_iff (rt : Runtime) :
    cmp0 rt = 0 ↔ ∀ i < 1024, rt.output 0 i % 2 ^ 32 = (2 * (i : Int)) % 2 ^ 32 := by
  unfold cmp0
  rw [DATA_SIZE_bytes, memcmp_eq_zero_iff]
  constructor
  · intro h i hi
    rw [h i hi, reference_add i (by unfold DATA_SIZE; omega)]
  · intro h i hi
    rw [h i hi, reference_add i (by unfold DATA_SIZE; omega)]

theorem cmp1_eq_zero_iff (rt : Runtime) :
    cmp1 rt = 0 ↔ ∀ i < 1024, rt.output 1 i % 2 ^ 32 = ((i : Int) * i) % 2 ^ 32 := by
  unfold cmp1
  rw [DATA_SIZE_bytes, memcmp_eq_zero_iff]
  constructor
  · intro h i hi
    rw [h i hi, reference_mul i (by unfold DATA_SIZE; omega)]
  · intro h i hi
    rw [h i hi, reference_mul i (by unfold DATA_SIZE; omega)]

theorem emod32_inj (x y : Int) (hx0 : -2 ^ 31 ≤ x) (hx1 : x < 2 ^ 31) (hy0 : -2 ^ 31 ≤ y)
    (hy1 : y < 2 ^ 31) (h : x % 2 ^ 32 = y % 2 ^ 32) : x = y := by
  omega

/-! ## Concrete runtimes -/

theorem goodRuntime_cmp : cmp0 goodRuntime = 0 ∧ cmp1 goodRuntime = 0 := by
  constructor
  · rw [cmp0_eq_zero_iff]
    intro i hi
    have : i < DATA_SIZE := by unfold DATA_SIZE; omega
    simp [goodRuntime, this]
  · rw [cmp1_eq_zero_iff]
    intro i hi
    have : i < DATA_SIZE := by unfold DATA_SIZE; omega
    simp [goodRuntime, this]

theorem tailFaultRuntime_cmp : cmp0 tailFaultRuntime = 0 ∧ cmp1 tailFaultRuntime = 0 := by
  constructor
  · rw [cmp0_eq_zero_iff]
    intro i hi
    have h1 : i < DATA_SIZE := by unfold DATA_SIZE; omega
    have h2 : i ≠ 4095 := by omega
    simp [tailFaultRuntime, h1, h2]
  · rw [cmp1_eq_zero_iff]
    intro i hi
    have : i < DATA_SIZE := by unfold DATA_SIZE; omega
    simp [tailFaultRuntime, this]

/-- The run when the device opens and the image load fails. -/
theorem run_of_load_error (rt : Runtime) (prog file : String) (d : Nat) (what : String)
    (hopen : rt.respond [] (.device 0) = .ok d)
    (hload : rt.respond [⟨.device 0, .ok d⟩] (.load_xclbin d file) = .error what) :
    main rt [prog, file] =
      { exit := .terminated (.xrt what),
        log := [.call (.device 0) (.ok d), .call (.load_xclbin d file) (.error what)],
        out := ["Open the device" ++ toString (0 : Int) ++ "\n",
                "Load the xclbin " ++ file ++ "\n"] } := by
  rw [main_two_args]
  unfold mainBody St.init
  rw [cout_bind, call_bind]
  dsimp only [List.nil_append, List.cons_append]
  simp only [calls]
  rw [hopen]
  dsimp only
  rw [cout_bind, call_bind]
  dsimp only [List.nil_append, List.cons_append]
  simp only [calls]
  rw [hload]
  rfl

/-! ## The claims -/

/-- C1, evaluated at a failing input.  On a runtime where every call succeeds
and both device outputs equal their references except that element 4095 of the
add output is 0 instead of 8190, the program returns 0 and prints
"TEST PASSED": the comparison covers `DATA_SIZE = 4096` bytes, the first 1024
ints, not all 4096 ints. -/
theorem tail_mismatch_passes :
    (main tailFaultRuntime ["host", "design.xclbin"]).exit = .returned 0 ∧
    "TEST PASSED\n" ∈ (main tailFaultRuntime ["host", "design.xclbin"]).out ∧
    (∀ s ∈ (main tailFaultRuntime ["host", "design.xclbin"]).log, s.failed = false) ∧
    tailFaultRuntime.output 0 4095 = 0 ∧
    reference (fun a b => a + b) 4095 = 8190 := by
  have hok := no_call_failure tailFaultRuntime "host" "design.xclbin"
    (fun _ _ _ h => by simp [tailFaultRuntime] at h)
  rcases run_without_call_failure _ _ _ hok with ⟨-, -, h3, h4, v, h5⟩ | ⟨h, -⟩
  · refine ⟨h3, ?_, ?_, ?_, ?_⟩
    · rw [h4]; exact passed_mem_fullOut _
    · rw [h5]; exact fullLog_ok _ _
    · simp [tailFaultRuntime, DATA_SIZE]
    · rw [reference_add 4095 (by decide)]; norm_num
  · rcases h with h | h
    · exact absurd tailFaultRuntime_cmp.1 h
    · exact absurd tailFaultRuntime_cmp.2 h

/-- C2, evaluated at the failing input and beside it.  With no positional
argument `argv[1]` is the null pointer and line 30 constructs a `std::string`
from it before `argc` is checked: undefined behaviour, and no usage message.
With two or more positional arguments the usage message is printed, the exit
code is `EXIT_FAILURE` and no XRT call is made. -/
theorem usage_check_after_argv_read (rt : Runtime) (prog a1 a2 : String) (rest : List String) :
    main rt [prog] = { exit := .undefined, log := [], out := [] } ∧
    main rt (prog :: a1 :: a2 :: rest) =
      { exit := .returned EXIT_FAILURE, log := [],
        out := ["Usage: " ++ prog ++ " <XCLBIN File>\n"] } := by
  constructor
  · rfl
  · simp [main]

/-- C3.  After the test-data loop of either job, for every index
`i < DATA_SIZE` both input mirrors hold `i`, the add reference holds `2 * i`
and the multiply reference holds `i * i` as mathematical integers: the 32-bit
arithmetic never wraps, the products staying below `2 ^ 31`. -/
theorem test_data_values (s : St) (in0 in1 i : Nat) (hi : i < DATA_SIZE) :
    ((∃ buf_ref, (createTestData (fun a b => a + b) in0 in1 s).1 = .ok buf_ref ∧
        buf_ref i = 2 * (i : Int)) ∧
      (createTestData (fun a b => a + b) in0 in1 s).2.mem in0 i = i ∧
      (createTestData (fun a b => a + b) in0 in1 s).2.mem in1 i = i) ∧
    ((∃ buf_ref1, (createTestData (fun a b => a * b) in0 in1 s).1 = .ok buf_ref1 ∧
        buf_ref1 i = (i : Int) * i) ∧
      (createTestData (fun a b => a * b) in0 in1 s).2.mem in0 i = i ∧
      (createTestData (fun a b => a * b) in0 in1 s).2.mem in1 i = i) ∧
    (i : Int) + i < 2 ^ 31 ∧ (i : Int) * i < 2 ^ 31 := by
  have hadd := testDataLoop_fst_apply (fun a b => a + b) in0 in1 DATA_SIZE s.mem i hi
  have hmul := testDataLoop_fst_apply (fun a b => a * b) in0 in1 DATA_SIZE s.mem i hi
  refine ⟨⟨⟨_, rfl, ?_⟩, hadd.1, hadd.2⟩, ⟨⟨_, rfl, ?_⟩, hmul.1, hmul.2⟩, ?_, index_sq_lt i hi⟩
  · show (testDataLoop (fun a b => a + b) in0 in1 DATA_SIZE s.mem).2 i = 2 * (i : Int)
    rw [testDataLoop_snd]
    exact reference_add i hi
  · show (testDataLoop (fun a b => a * b) in0 in1 DATA_SIZE s.mem).2 i = (i : Int) * i
    rw [testDataLoop_snd]
    exact reference_mul i hi
  · unfold DATA_SIZE at hi
    omega

/-- Witness for C3: the last index, 4095. -/
theorem test_data_values_witness :
    4095 < DATA_SIZE ∧
    (((∃ buf_ref, (createTestData (fun a b => a + b) 1 2 St.init).1 = .ok buf_ref ∧
        buf_ref 4095 = 2 * ((4095 : Nat) : Int)) ∧
      (createTestData (fun a b => a + b) 1 2 St.init).2.mem 1 4095 = (4095 : Nat) ∧
      (createTestData (fun a b => a + b) 1 2 St.init).2.mem 2 4095 = (4095 : Nat)) ∧
    ((∃ buf_ref1, (createTestData (fun a b => a * b) 1 2 St.init).1 = .ok buf_ref1 ∧
        buf_ref1 4095 = ((4095 : Nat) : Int) * (4095 : Nat)) ∧
      (createTestData (fun a b => a * b) 1 2 St.init).2.mem 1 4095 = (4095 : Nat) ∧
      (createTestData (fun a b => a * b) 1 2 St.init).2.mem 2 4095 = (4095 : Nat)) ∧
    ((4095 : Nat) : Int) + (4095 : Nat) < 2 ^ 31 ∧ ((4095 : Nat) : Int) * (4095 : Nat) < 2 ^ 31) :=
  ⟨by decide, test_data_values St.init 1 2 4095 (by decide)⟩

/-- C4.  In a run with one argument, a step that fails (an XRT call answered
with an error, or a comparison that finds a difference) is the last step of
the run: nothing is performed after it, no step before it failed (so the
failing operation is not a retry and is not retried), "TEST PASSED" is not
printed, and the process is terminated by an uncaught exception instead of
returning an exit code: the error of the failed call, or the
`std::runtime_error` "Value read back does not match reference". -/
theorem failure_ends_run (rt : Runtime) (prog file : String) (pre post : List Step) (st : Step)
    (hlog : (main rt [prog, file]).log = pre ++ st :: post) (hst : st.failed = true) :
    post = [] ∧ (∀ s ∈ pre, s.failed = false) ∧
    "TEST PASSED\n" ∉ (main rt [prog, file]).out ∧
    ((∃ op e, st = Step.call op (Reply.error e) ∧
        (main rt [prog, file]).exit = Exit.terminated (Exception.xrt e)) ∨
     (∃ b n c, st = Step.memcmp b n c ∧
        (main rt [prog, file]).exit = Exit.terminated
          (Exception.runtime_error "Value read back does not match reference"))) := by
  obtain ⟨h1, h2, h3, h4⟩ := failure_final rt prog file pre post st hlog hst
  refine ⟨h1, h2, h3, ?_⟩
  rcases h4 with ⟨op, e, h5, -, h⟩ | ⟨b, n, c, h5, -, h⟩
  · exact Or.inl ⟨op, e, h5, h⟩
  · exact Or.inr ⟨b, n, c, h5, h⟩

/-- Witness for C4: the image load fails on `noImageRuntime`. -/
theorem failure_ends_run_witness :
    (main noImageRuntime ["host", "missing.xclbin"]).log =
        [Step.call (Op.device 0) (Reply.ok 0)] ++
          Step.call (Op.load_xclbin 0 "missing.xclbin") (Reply.error "xclbin not found") :: [] ∧
    (Step.call (Op.load_xclbin 0 "missing.xclbin") (Reply.error "xclbin not found")).failed = true ∧
    (([] : List Step) = [] ∧ (∀ s ∈ [Step.call (Op.device 0) (Reply.ok 0)], s.failed = false) ∧
      "TEST PASSED\n" ∉ (main noImageRuntime ["host", "missing.xclbin"]).out ∧
      ((∃ op e, Step.call (Op.load_xclbin 0 "missing.xclbin") (Reply.error "xclbin not found") =
            Step.call op (Reply.error e) ∧
          (main noImageRuntime ["host", "missing.xclbin"]).exit =
            Exit.terminated (Exception.xrt e)) ∨
       (∃ b n c, Step.call (Op.load_xclbin 0 "missing.xclbin") (Reply.error "xclbin not found") =
            Step.memcmp b n c ∧
          (main noImageRuntime ["host", "missing.xclbin"]).exit = Exit.terminated
            (Exception.runtime_error "Value read back does not match reference")))) :=
  ⟨by rw [run_of_load_error noImageRuntime "host" "missing.xclbin" 0 "xclbin not found" rfl rfl]; rfl,
   rfl,
   failure_ends_run noImageRuntime "host" "missing.xclbin" [Step.call (Op.device 0) (Reply.ok 0)] []
     (Step.call (Op.load_xclbin 0 "missing.xclbin") (Reply.error "xclbin not found"))
     (by rw [run_of_load_error noImageRuntime "host" "missing.xclbin" 0 "xclbin not found" rfl rfl]; rfl)
     rfl⟩

/-- C5.  In a run with one argument in which the device opens and loading the
image at `argv[1]` fails, the process is terminated by the error of the load;
the log consists of the device open and the failed load, so it contains no
kernel resolution, no buffer allocation, no transfer and no invocation. -/
theorem load_failure_stops_before_kernels (rt : Runtime) (prog file : String) (d : Nat)
    (what : String) (hopen : rt.respond [] (.device 0) = .ok d)
    (hload : rt.respond [⟨.device 0, .ok d⟩] (.load_xclbin d file) = .error what) :
    (main rt [prog, file]).exit = .terminated (.xrt what) ∧
    (main rt [prog, file]).log =
      [.call (.device 0) (.ok d), .call (.load_xclbin d file) (.error what)] ∧
    (∀ s ∈ (main rt [prog, file]).log,
      s.isResolve = false ∧ s.isAlloc = false ∧ s.isTransfer = false ∧ s.isInvoke = false) ∧
    "TEST PASSED\n" ∉ (main rt [prog, file]).out := by
  rw [run_of_load_error rt prog file d what hopen hload]
  refine ⟨rfl, rfl, ?_, ?_⟩
  · simp [Step.isResolve, Step.isAlloc, Step.isTransfer, Step.isInvoke]
  · exact not_passed_of_take file 2 (by decide)

/-- Witness for C5: `noImageRuntime` opens device 0 and fails the load. -/
theorem load_failure_stops_before_kernels_witness :
    noImageRuntime.respond [] (.device 0) = .ok 0 ∧
    noImageRuntime.respond [⟨.device 0, .ok 0⟩] (.load_xclbin 0 "missing.xclbin") =
      .error "xclbin not found" ∧
    ((main noImageRuntime ["host", "missing.xclbin"]).exit = .terminated (.xrt "xclbin not found") ∧
    (main noImageRuntime ["host", "missing.xclbin"]).log =
      [.call (.device 0) (.ok 0), .call (.load_xclbin 0 "missing.xclbin") (.error "xclbin not found")] ∧
    (∀ s ∈ (main noImageRuntime ["host", "missing.xclbin"]).log,
      s.isResolve = false ∧ s.isAlloc = false ∧ s.isTransfer = false ∧ s.isInvoke = false) ∧
    "TEST PASSED\n" ∉ (main noImageRuntime ["host", "missing.xclbin"]).out) :=
  ⟨rfl, rfl,
   load_failure_stops_before_kernels noImageRuntime "host" "missing.xclbin" 0 "xclbin not found"
     rfl rfl⟩

/-- C7.  In a run with one argument in which no XRT call fails and the pulled
outputs are 32-bit ints, the program returns 0 and prints "TEST PASSED" exactly
when both outputs agree with their references (`2 * i` and `i * i`) on elements
0..1023; and a run against a runtime that answers the calls in the same way
and whose outputs agree on elements 0..1023 has the same outcome, whatever
elements 1024..4095 hold. -/
theorem validation_reads_first_1024_ints (rt : Runtime) (prog file : String)
    (hok : ∀ s ∈ (main rt [prog, file]).log, ∀ op e, s ≠ .call op (.error e))
    (h32 : ∀ k i, i < DATA_SIZE → -2 ^ 31 ≤ rt.output k i ∧ rt.output k i < 2 ^ 31) :
    (((main rt [prog, file]).exit = .returned 0 ∧
        "TEST PASSED\n" ∈ (main rt [prog, file]).out) ↔
      ((∀ i < 1024, rt.output 0 i = 2 * (i : Int)) ∧
       (∀ i < 1024, rt.output 1 i = (i : Int) * i))) ∧
    (∀ rt2 : Runtime, rt2.respond = rt.respond →
      (∀ k i, i < 1024 → rt2.output k i = rt.output k i) →
      main rt2 [prog, file] = main rt [prog, file]) := by
  refine ⟨?_, fun rt2 hr ho => main_congr hr ho _⟩
  have key : (cmp0 rt = 0 ∧ cmp1 rt = 0) ↔
      ((∀ i < 1024, rt.output 0 i = 2 * (i : Int)) ∧
       (∀ i < 1024, rt.output 1 i = (i : Int) * i)) := by
    rw [cmp0_eq_zero_iff, cmp1_eq_zero_iff]
    constructor
    · rintro ⟨h0, h1⟩
      constructor
      · intro i hi
        have hd : i < DATA_SIZE := by unfold DATA_SIZE; omega
        have hb := h32 0 i hd
        apply emod32_inj _ _ hb.1 hb.2 (by omega) (by omega) (h0 i hi)
      · intro i hi
        have hd : i < DATA_SIZE := by unfold DATA_SIZE; omega
        have hb := h32 1 i hd
        have hs := index_sq_lt i hd
        have hs0 : (0 : Int) ≤ (i : Int) * i := by positivity
        apply emod32_inj _ _ hb.1 hb.2 (by omega) hs (h1 i hi)
    · rintro ⟨h0, h1⟩
      exact ⟨fun i hi => by rw [h0 i hi], fun i hi => by rw [h1 i hi]⟩
  rw [← key]
  rcases run_without_call_failure rt prog file hok with ⟨h0, h1, h3, h4, -⟩ | ⟨h, h3, h4⟩
  · exact ⟨fun _ => ⟨h0, h1⟩, fun _ => ⟨h3, by rw [h4]; exact passed_mem_fullOut _⟩⟩
  · constructor
    · intro hp
      exact absurd hp.2 h4
    · rintro ⟨h0, h1⟩
      rcases h with h | h
      · exact absurd h0 h
      · exact absurd h1 h

theorem goodRuntime_int32 (k i : Nat) (hi : i < DATA_SIZE) :
    -2 ^ 31 ≤ goodRuntime.output k i ∧ goodRuntime.output k i < 2 ^ 31 := by
  have hs := index_sq_lt i hi
  have hs0 : (0 : Int) ≤ (i : Int) * i := by positivity
  simp only [goodRuntime, if_pos hi]
  unfold DATA_SIZE at hi
  split <;> constructor <;> omega

theorem goodRuntime_no_call_failure (prog file : String) :
    ∀ s ∈ (main goodRuntime [prog, file]).log, ∀ op e, s ≠ .call op (.error e) :=
  no_call_failure goodRuntime prog file (fun _ _ _ h => by simp [goodRuntime] at h)

theorem goodRuntime_no_failure (prog file : String) :
    ∀ s ∈ (main goodRuntime [prog, file]).log, s.failed = false := by
  rcases run_without_call_failure _ _ _ (goodRuntime_no_call_failure prog file) with
    ⟨-, -, -, -, v, h5⟩ | ⟨h, -⟩
  · rw [h5]; exact fullLog_ok _ _
  · rcases h with h | h
    · exact absurd goodRuntime_cmp.1 h
    · exact absurd goodRuntime_cmp.2 h

/-- Witness for C7: `goodRuntime`, on which no call fails and whose outputs
are 32-bit ints. -/
theorem validation_reads_first_1024_ints_witness :
    (∀ s ∈ (main goodRuntime ["host", "design.xclbin"]).log, ∀ op e, s ≠ .call op (.error e)) ∧
    (∀ k i, i < DATA_SIZE →
      -2 ^ 31 ≤ goodRuntime.output k i ∧ goodRuntime.output k i < 2 ^ 31) ∧
    ((((main goodRuntime ["host", "design.xclbin"]).exit = .returned 0 ∧
        "TEST PASSED\n" ∈ (main goodRuntime ["host", "design.xclbin"]).out) ↔
      ((∀ i < 1024, goodRuntime.output 0 i = 2 * (i : Int)) ∧
       (∀ i < 1024, goodRuntime.output 1 i = (i : Int) * i))) ∧
    (∀ rt2 : Runtime, rt2.respond = goodRuntime.respond →
      (∀ k i, i < 1024 → rt2.output k i = goodRuntime.output k i) →
      main rt2 ["host", "design.xclbin"] = main goodRuntime ["host", "design.xclbin"])) :=
  ⟨goodRuntime_no_call_failure _ _, goodRuntime_int32,
   validation_reads_first_1024_ints goodRuntime "host" "design.xclbin"
     (goodRuntime_no_call_failure _ _) goodRuntime_int32⟩

/-- C8.  In a run with one argument in which no step fails (no XRT call
errors, both comparisons find no difference), the log is exactly: open device
0; load the image at `argv[1]`; then for `krnl_vadd` and afterwards for
`krnl_vmult`: resolve the kernel, look up group 0, 1, 2 and allocate a buffer
of 16384 bytes in each, map the three buffers, fill the inputs, push input 0,
push input 1, invoke the kernel on (input0, input1, output, 4096), wait on that
run, pull the output, compare it.  The run returns 0.  Leaving out the
host-side mapping calls, the XRT calls are the sequence of the second
conjunct. -/
theorem successful_run_log (rt : Runtime) (prog file : String)
    (hok : ∀ s ∈ (main rt [prog, file]).log, s.failed = false) :
    ∃ device uuid krnl_vadd g0 bo0 g1 bo1 g2 bo_out p0 p1 p2 r0 r1 run r2 r3
      krnl_vmult g3 bo2 g4 bo3 g5 bo_output p3 p4 p5 r4 r5 run1 r6 r7 : Nat,
      (main rt [prog, file]).log =
        [ Step.call (Op.device 0) (Reply.ok device),
          Step.call (Op.load_xclbin device file) (Reply.ok uuid),
          Step.call (Op.kernel device uuid "krnl_vadd") (Reply.ok krnl_vadd),
          Step.call (Op.group_id krnl_vadd 0) (Reply.ok g0),
          Step.call (Op.bo device 16384 g0) (Reply.ok bo0),
          Step.call (Op.group_id krnl_vadd 1) (Reply.ok g1),
          Step.call (Op.bo device 16384 g1) (Reply.ok bo1),
          Step.call (Op.group_id krnl_vadd 2) (Reply.ok g2),
          Step.call (Op.bo device 16384 g2) (Reply.ok bo_out),
          Step.call (Op.map bo0) (Reply.ok p0),
          Step.call (Op.map bo1) (Reply.ok p1),
          Step.call (Op.map bo_out) (Reply.ok p2),
          Step.populate bo0 bo1,
          Step.call (Op.sync bo0 Direction.XCL_BO_SYNC_BO_TO_DEVICE) (Reply.ok r0),
          Step.call (Op.sync bo1 Direction.XCL_BO_SYNC_BO_TO_DEVICE) (Reply.ok r1),
          Step.call (Op.run krnl_vadd bo0 bo1 bo_out 4096) (Reply.ok run),
          Step.call (Op.wait run) (Reply.ok r2),
          Step.call (Op.sync bo_out Direction.XCL_BO_SYNC_BO_FROM_DEVICE) (Reply.ok r3),
          Step.memcmp bo_out 4096 0,
          Step.call (Op.kernel device uuid "krnl_vmult") (Reply.ok krnl_vmult),
          Step.call (Op.group_id krnl_vmult 0) (Reply.ok g3),
          Step.call (Op.bo device 16384 g3) (Reply.ok bo2),
          Step.call (Op.group_id krnl_vmult 1) (Reply.ok g4),
          Step.call (Op.bo device 16384 g4) (Reply.ok bo3),
          Step.call (Op.group_id krnl_vmult 2) (Reply.ok g5),
          Step.call (Op.bo device 16384 g5) (Reply.ok bo_output),
          Step.call (Op.map bo2) (Reply.ok p3),
          Step.call (Op.map bo3) (Reply.ok p4),
          Step.call (Op.map bo_output) (Reply.ok p5),
          Step.populate bo2 bo3,
          Step.call (Op.sync bo2 Direction.XCL_BO_SYNC_BO_TO_DEVICE) (Reply.ok r4),
          Step.call (Op.sync bo3 Direction.XCL_BO_SYNC_BO_TO_DEVICE) (Reply.ok r5),
          Step.call (Op.run krnl_vmult bo2 bo3 bo_output 4096) (Reply.ok run1),
          Step.call (Op.wait run1) (Reply.ok r6),
          Step.call (Op.sync bo_output Direction.XCL_BO_SYNC_BO_FROM_DEVICE) (Reply.ok r7),
          Step.memcmp bo_output 4096 0 ] ∧
      deviceCalls (main rt [prog, file]).log =
        ([ ⟨Op.device 0, Reply.ok device⟩,
          ⟨Op.load_xclbin device file, Reply.ok uuid⟩,
          ⟨Op.kernel device uuid "krnl_vadd", Reply.ok krnl_vadd⟩,
          ⟨Op.group_id krnl_vadd 0, Reply.ok g0⟩, ⟨Op.bo device 16384 g0, Reply.ok bo0⟩,
          ⟨Op.group_id krnl_vadd 1, Reply.ok g1⟩, ⟨Op.bo device 16384 g1, Reply.ok bo1⟩,
          ⟨Op.group_id krnl_vadd 2, Reply.ok g2⟩, ⟨Op.bo device 16384 g2, Reply.ok bo_out⟩,
          ⟨Op.sync bo0 Direction.XCL_BO_SYNC_BO_TO_DEVICE, Reply.ok r0⟩,
          ⟨Op.sync bo1 Direction.XCL_BO_SYNC_BO_TO_DEVICE, Reply.ok r1⟩,
          ⟨Op.run krnl_vadd bo0 bo1 bo_out 4096, Reply.ok run⟩,
          ⟨Op.wait run, Reply.ok r2⟩,
          ⟨Op.sync bo_out Direction.XCL_BO_SYNC_BO_FROM_DEVICE, Reply.ok r3⟩,
          ⟨Op.kernel device uuid "krnl_vmult", Reply.ok krnl_vmult⟩,
          ⟨Op.group_id krnl_vmult 0, Reply.ok g3⟩, ⟨Op.bo device 16384 g3, Reply.ok bo2⟩,
          ⟨Op.group_id krnl_vmult 1, Reply.ok g4⟩, ⟨Op.bo device 16384 g4, Reply.ok bo3⟩,
          ⟨Op.group_id krnl_vmult 2, Reply.ok g5⟩, ⟨Op.bo device 16384 g5, Reply.ok bo_output⟩,
          ⟨Op.sync bo2 Direction.XCL_BO_SYNC_BO_TO_DEVICE, Reply.ok r4⟩,
          ⟨Op.sync bo3 Direction.XCL_BO_SYNC_BO_TO_DEVICE, Reply.ok r5⟩,
          ⟨Op.run krnl_vmult bo2 bo3 bo_output 4096, Reply.ok run1⟩,
          ⟨Op.wait run1, Reply.ok r6⟩,
          ⟨Op.sync bo_output Direction.XCL_BO_SYNC_BO_FROM_DEVICE, Reply.ok r7⟩ ] : List Call) ∧
      (main rt [prog, file]).exit = Exit.returned 0 := by
  have hcall : ∀ s ∈ (main rt [prog, file]).log, ∀ op e, s ≠ .call op (.error e) := by
    intro s hs op e hse
    have := hok s hs
    rw [hse] at this
    simp [Step.failed] at this
  rcases run_without_call_failure rt prog file hcall with ⟨-, -, h3, -, v, h5⟩ | ⟨h, h3, -⟩
  · refine ⟨v 0, v 1, v 2, v 3, v 4, v 5, v 6, v 7, v 8, v 9, v 10, v 11, v 12, v 13, v 14, v 15,
      v 16, v 17, v 18, v 19, v 20, v 21, v 22, v 23, v 24, v 25, v 26, v 27, v 28, v 29, v 30,
      v 31, ?_, ?_, h3⟩
    · rw [h5]; rfl
    · rw [h5]; rfl
  · obtain ⟨v, hc⟩ := run_cases rt prog file
    rcases hc with ⟨n, op, rep, e, -, h2, -⟩ | ⟨h0, h2, -⟩ | ⟨-, h1, h2, -⟩ | ⟨-, -, -, h4, -⟩
    · exact absurd rfl (hcall (.call op (.error e)) (by rw [h2]; simp) op e)
    · have hm : Step.memcmp (v 8) DATA_SIZE (cmp0 rt) ∈ (main rt [prog, file]).log := by
        rw [h2]; simp [fullLog, jobLog]
      have := hok _ hm
      simp [Step.failed, h0] at this
    · have hm : Step.memcmp (v 23) DATA_SIZE (cmp1 rt) ∈ (main rt [prog, file]).log := by
        rw [h2]; simp [fullLog, jobLog]
      have := hok _ hm
      simp [Step.failed, h1] at this
    · rw [h4] at h3
      exact absurd h3 (by simp)

/-- Witness for C8: the run on `goodRuntime`. -/
theorem successful_run_log_witness :
    (∀ s ∈ (main goodRuntime ["host", "design.xclbin"]).log, s.failed = false) ∧
    (main goodRuntime ["host", "design.xclbin"]).exit = .returned 0 :=
  ⟨goodRuntime_no_failure _ _,
   (successful_run_log goodRuntime "host" "design.xclbin" (goodRuntime_no_failure _ _)).elim
     fun _ h => by
       obtain ⟨_, _, _, _, _, _, _, _, _, _, _, _, _, _, _, _, _, _, _, _, _, _, _, _, _, _, _, _,
         _, _, _, _, _, h⟩ := h
       exact h⟩

/-! ## Order and data flow of the steps -/

/-- A count that looks at calls only through their operation cannot grow
when the nominal sequence is cut. -/
theorem cutOf_filter_length_le {L log : List Step} (p : Step → Bool)
    (hp : ∀ op rep e, p (.call op (.error e)) = p (.call op rep)) (h : CutOf L log) :
    (log.filter p).length ≤ (L.filter p).length := by
  obtain ⟨n, h | ⟨op, rep, e, hn, h⟩⟩ := h
  · rw [h]
    exact ((List.take_sublist n L).filter p).length_le
  · have hlt : n < L.length := by
      by_contra hc
      rw [List.getElem?_eq_none (by omega)] at hn
      exact absurd hn (by simp)
    rw [List.getElem?_eq_getElem hlt] at hn
    simp only [Option.some.injEq] at hn
    have hL : L = L.take n ++ Step.call op rep :: L.drop (n + 1) := by
      rw [← hn, ← List.drop_eq_getElem_cons hlt, List.take_append_drop]
    rw [h]
    conv_rhs => rw [hL]
    simp only [List.filter_append, List.length_append, List.filter_cons, List.filter_nil, hp op rep e]
    cases p (Step.call op rep) <;> simp

theorem isAlloc_call (op : Op) (rep rep2 : Reply) :
    (Step.call op rep).isAlloc = (Step.call op rep2).isAlloc := by
  cases op <;> rfl

theorem kernelUsed_call (op : Op) (rep rep2 : Reply) :
    (Step.call op rep).kernelUsed = (Step.call op rep2).kernelUsed := by
  cases op <;> rfl

theorem buffers_call (op : Op) (rep rep2 : Reply) :
    (Step.call op rep).buffers = (Step.call op rep2).buffers := by
  cases op <;> rfl

theorem fullLog_counts (file : String) (v : Nat → Nat) (c0 c1 : Int) :
    ((fullLog file v c0 c1).filter Step.isLoad).length = 1 ∧
    ((fullLog file v c0 c1).filter (Step.resolves "krnl_vadd")).length = 1 ∧
    ((fullLog file v c0 c1).filter (Step.resolves "krnl_vmult")).length = 1 := by
  simp [fullLog, jobLog, Step.isLoad, Step.resolves]

set_option maxHeartbeats 1000000 in
theorem fullLog_resolution_scan (file : String) (v : Nat → Nat) (c0 c1 : Int) :
    ScanAll (fun s st => ∀ d u name rep, st = Step.call (Op.kernel d u name) rep →
        ((name = "krnl_vadd" ∧ s.allocs = 0) ∨ (name = "krnl_vmult" ∧ s.allocs = 3)) ∧
        ∃ f, s.loads = [Step.call (Op.load_xclbin d f) (Reply.ok u)])
      (summarize []) (fullLog file v c0 c1) := by
  simp only [ScanAll, fullLog, jobLog, List.cons_append, List.nil_append]
  simp [summarize, Summary.push, Step.isAlloc, Step.isLoad, Step.isResolve, Step.resolves,
    Step.resolved, allocated]
  constructor <;> (rintro _ _ _ _ rfl rfl rfl rfl; exact ⟨rfl, rfl, rfl⟩)

set_option maxHeartbeats 1000000 in
theorem fullLog_allocation_scan (file : String) (v : Nat → Nat) (c0 c1 : Int) :
    ScanAll (fun s st => st.isAlloc = true →
        s.vaddResolved = true ∧ s.allocs < 6 ∧ (3 ≤ s.allocs → s.vmultResolved = true))
      (summarize []) (fullLog file v c0 c1) := by
  simp only [ScanAll, fullLog, jobLog, List.cons_append, List.nil_append]
  simp [summarize, Summary.push, Step.isAlloc, Step.isLoad, Step.isResolve, Step.resolves,
    Step.resolved, allocated]

set_option maxHeartbeats 1000000 in
theorem fullLog_kernel_scan (file : String) (v : Nat → Nat) (c0 c1 : Int) :
    ScanAll (fun s st => ∀ k, st.kernelUsed = some k →
        (∃ d u, s.resolutions = [Step.call (Op.kernel d u "krnl_vadd") (Reply.ok k)]) ∨
        (∃ d u k0, s.resolutions =
          [Step.call (Op.kernel d u "krnl_vadd") (Reply.ok k0),
           Step.call (Op.kernel d u "krnl_vmult") (Reply.ok k)]))
      (summarize []) (fullLog file v c0 c1) := by
  simp only [ScanAll, fullLog, jobLog, List.cons_append, List.nil_append]
  simp [summarize, Summary.push, Step.isAlloc, Step.isLoad, Step.isResolve, Step.resolves,
    Step.resolved, allocated, Step.kernelUsed]

set_option maxHeartbeats 1000000 in
theorem fullLog_buffer_scan (file : String) (v : Nat → Nat) (c0 c1 : Int) :
    ScanAll (fun s st => ∀ b ∈ st.buffers,
        (s.multStarted = false → s.buffers.length = 3 ∧ b ∈ s.buffers) ∧
        (s.multStarted = true → s.buffers.length = 6 ∧ b ∈ s.buffers.drop 3))
      (summarize []) (fullLog file v c0 c1) := by
  simp only [ScanAll, fullLog, jobLog, List.cons_append, List.nil_append]
  simp [summarize, Summary.push, Step.isAlloc, Step.isLoad, Step.isResolve, Step.resolves,
    Step.resolved, allocated, Step.buffers]

/-- C6.  In a run with one argument: (1) a kernel resolution that fails is
the last step, the process is terminated by its error, and the allocations
made before it number 0 when the kernel is `krnl_vadd` and 3 (those of the add
job) when it is `krnl_vmult`, so none of the failing job's allocations was
made; (2) every buffer allocation comes after a successful resolution of
`krnl_vadd`, there are at most six, and the fourth to sixth (those of the
multiply job) come after a successful resolution of `krnl_vmult`. -/
theorem resolution_precedes_allocation (rt : Runtime) (prog file : String) :
    (∀ pre d u name e post,
      (main rt [prog, file]).log = pre ++ Step.call (Op.kernel d u name) (Reply.error e) :: post →
      post = [] ∧ (main rt [prog, file]).exit = Exit.terminated (Exception.xrt e) ∧
      ((name = "krnl_vadd" ∧ (pre.filter Step.isAlloc).length = 0) ∨
       (name = "krnl_vmult" ∧ (pre.filter Step.isAlloc).length = 3))) ∧
    (∀ pre st post, (main rt [prog, file]).log = pre ++ st :: post → st.isAlloc = true →
      pre.any (Step.resolved "krnl_vadd") = true ∧
      (pre.filter Step.isAlloc).length < 6 ∧
      (3 ≤ (pre.filter Step.isAlloc).length → pre.any (Step.resolved "krnl_vmult") = true)) := by
  obtain ⟨v, c0, c1, hcut⟩ := main_cutOf rt prog file
  constructor
  · intro pre d u name e post hlog
    obtain ⟨h1, -, -, h4⟩ := failure_final rt prog file pre post _ hlog rfl
    refine ⟨h1, ?_, ?_⟩
    · rcases h4 with ⟨op, e2, h5, -, h6⟩ | ⟨_, _, _, h5, -⟩
      · simp only [Step.call.injEq, Reply.error.injEq] at h5
        rw [h5.2]; exact h6
      · exact absurd h5 (by simp)
    · have := cutOf_forall_split
        (Q := fun pre st => ∀ d u name rep, st = Step.call (Op.kernel d u name) rep →
          ((name = "krnl_vadd" ∧ (summarize pre).allocs = 0) ∨
           (name = "krnl_vmult" ∧ (summarize pre).allocs = 3)) ∧
          ∃ f, (summarize pre).loads = [Step.call (Op.load_xclbin d f) (Reply.ok u)])
        (fun pre op rep e h d u name rep2 heq => by
          simp only [Step.call.injEq] at heq
          exact h d u name rep (by rw [heq.1]))
        (scanAll_split_nil (fullLog_resolution_scan file v c0 c1)) hcut pre _ post hlog
        d u name _ rfl
      exact this.1
  · intro pre st post hlog hst
    have := cutOf_forall_split
      (Q := fun pre st => st.isAlloc = true →
        (summarize pre).vaddResolved = true ∧ (summarize pre).allocs < 6 ∧
        (3 ≤ (summarize pre).allocs → (summarize pre).vmultResolved = true))
      (fun pre op rep e h hs => h (by rw [isAlloc_call op rep (Reply.error e)]; exact hs))
      (scanAll_split_nil (fullLog_allocation_scan file v c0 c1)) hcut pre st post hlog hst
    exact this

/-- C9.  In every run: the image is loaded at most once and each of the two
kernel names is resolved at most once; before every kernel resolution there is
exactly one image load, a successful one on the same device, and the
resolution uses the identifier that load returned; every `group_id` lookup and
every invocation works on the handle returned by the latest resolution, which
is that of `krnl_vadd` in the add job (when it is the only resolution so far)
and that of `krnl_vmult` in the multiply job. -/
theorem load_and_resolutions_once (rt : Runtime) (args : List String) :
    (((main rt args).log.filter Step.isLoad).length ≤ 1 ∧
      ((main rt args).log.filter (Step.resolves "krnl_vadd")).length ≤ 1 ∧
      ((main rt args).log.filter (Step.resolves "krnl_vmult")).length ≤ 1) ∧
    (∀ pre d u name rep post,
      (main rt args).log = pre ++ Step.call (Op.kernel d u name) rep :: post →
      ∃ f, pre.filter Step.isLoad = [Step.call (Op.load_xclbin d f) (Reply.ok u)]) ∧
    (∀ pre st post k, (main rt args).log = pre ++ st :: post → st.kernelUsed = some k →
      (∃ d u, pre.filter Step.isResolve = [Step.call (Op.kernel d u "krnl_vadd") (Reply.ok k)]) ∨
      (∃ d u k0, pre.filter Step.isResolve =
        [Step.call (Op.kernel d u "krnl_vadd") (Reply.ok k0),
         Step.call (Op.kernel d u "krnl_vmult") (Reply.ok k)])) := by
  obtain ⟨file, v, c0, c1, hcut⟩ := main_cutOf_any rt args
  have hc := fullLog_counts file v c0 c1
  refine ⟨⟨?_, ?_, ?_⟩, ?_, ?_⟩
  · have := cutOf_filter_length_le Step.isLoad (fun op _ _ => by cases op <;> rfl) hcut
    omega
  · have := cutOf_filter_length_le (Step.resolves "krnl_vadd")
      (fun op _ _ => by cases op <;> rfl) hcut
    omega
  · have := cutOf_filter_length_le (Step.resolves "krnl_vmult")
      (fun op _ _ => by cases op <;> rfl) hcut
    omega
  · intro pre d u name rep post hlog
    have := cutOf_forall_split
      (Q := fun pre st => ∀ d u name rep, st = Step.call (Op.kernel d u name) rep →
        ((name = "krnl_vadd" ∧ (summarize pre).allocs = 0) ∨
         (name = "krnl_vmult" ∧ (summarize pre).allocs = 3)) ∧
        ∃ f, (summarize pre).loads = [Step.call (Op.load_xclbin d f) (Reply.ok u)])
      (fun pre op rep e h d u name rep2 heq => by
        simp only [Step.call.injEq] at heq
        exact h d u name rep (by rw [heq.1]))
      (scanAll_split_nil (fullLog_resolution_scan file v c0 c1)) hcut pre _ post hlog
      d u name _ rfl
    exact this.2
  · intro pre st post k hlog hk
    exact cutOf_forall_split
      (Q := fun pre st => ∀ k, st.kernelUsed = some k →
        (∃ d u, (summarize pre).resolutions =
          [Step.call (Op.kernel d u "krnl_vadd") (Reply.ok k)]) ∨
        (∃ d u k0, (summarize pre).resolutions =
          [Step.call (Op.kernel d u "krnl_vadd") (Reply.ok k0),
           Step.call (Op.kernel d u "krnl_vmult") (Reply.ok k)]))
      (fun pre op rep e h k hk =>
        h k (by rw [kernelUsed_call op rep (Reply.error e)]; exact hk))
      (scanAll_split_nil (fullLog_kernel_scan file v c0 c1)) hcut pre st post hlog k hk

/-- C10.  In every run, a step that maps, fills, transfers, passes as a
kernel argument or compares a buffer comes after all three allocations of its
job and names one of the three buffers those allocations returned: in the add
job (before `krnl_vmult` is resolved) exactly three buffers have been allocated
and the step names one of them; in the multiply job exactly six have been, and
the step names one of the last three.  A run that returns 0 has made six
allocations.  When the runtime hands out six different buffers, no step of one
job names a buffer allocated for the other. -/
theorem jobs_use_own_buffers (rt : Runtime) (args : List String) :
    ((main rt args).exit = Exit.returned 0 → (allocated (main rt args).log).length = 6) ∧
    (∀ pre st post b, (main rt args).log = pre ++ st :: post → b ∈ st.buffers →
      (pre.any (Step.resolves "krnl_vmult") = false →
        (allocated pre).length = 3 ∧ b ∈ allocated pre ∧
        ((allocated (main rt args).log).Nodup → b ∉ (allocated (main rt args).log).drop 3)) ∧
      (pre.any (Step.resolves "krnl_vmult") = true →
        (allocated pre).length = 6 ∧ b ∈ (allocated pre).drop 3 ∧
        ((allocated (main rt args).log).Nodup → b ∉ (allocated (main rt args).log).take 3))) := by
  obtain ⟨file, v, c0, c1, hcut⟩ := main_cutOf_any rt args
  constructor
  · intro hexit
    clear hcut
    match args, hexit with
    | [], h => exact absurd h (by simp [main])
    | [_], h => exact absurd h (by simp [main])
    | _ :: _ :: _ :: _, h => exact absurd h (by simp [main, EXIT_FAILURE])
    | [prog, file2], hexit =>
      obtain ⟨v2, hc⟩ := run_cases rt prog file2
      rcases hc with ⟨_, _, _, _, -, -, h3, -⟩ | ⟨-, -, h3, -⟩ | ⟨-, -, -, h3, -⟩ | ⟨-, -, h2, -⟩
      · rw [h3] at hexit; exact absurd hexit (by simp)
      · rw [h3] at hexit; exact absurd hexit (by simp [validationError])
      · rw [h3] at hexit; exact absurd hexit (by simp [validationError])
      · rw [h2]; rfl
  · intro pre st post b hlog hb
    have hQ := cutOf_forall_split
      (Q := fun pre st => ∀ b ∈ st.buffers,
        ((summarize pre).multStarted = false →
          (summarize pre).buffers.length = 3 ∧ b ∈ (summarize pre).buffers) ∧
        ((summarize pre).multStarted = true →
          (summarize pre).buffers.length = 6 ∧ b ∈ (summarize pre).buffers.drop 3))
      (fun pre op rep e h b hb =>
        h b (by rw [buffers_call op rep (Reply.error e)]; exact hb))
      (scanAll_split_nil (fullLog_buffer_scan file v c0 c1)) hcut pre st post hlog b hb
    have happ : allocated (main rt args).log = allocated pre ++ allocated (st :: post) := by
      rw [hlog, allocated_append]
    constructor
    · intro hm
      obtain ⟨h1, h2⟩ := hQ.1 hm
      have h1b : (allocated pre).length = 3 := h1
      refine ⟨h1, h2, fun hnd hmem => ?_⟩
      rw [happ] at hnd hmem
      rw [List.drop_append_of_le_length (by omega), List.drop_of_length_le (by omega),
        List.nil_append] at hmem
      exact (List.nodup_append.mp hnd).2.2 h2 hmem
    · intro hm
      obtain ⟨h1, h2⟩ := hQ.2 hm
      have h1b : (allocated pre).length = 6 := h1
      refine ⟨h1, h2, fun hnd hmem => ?_⟩
      rw [happ] at hnd hmem
      rw [List.take_append_of_le_length (by omega)] at hmem
      have hnd2 := (List.nodup_append.mp hnd).1
      rw [← List.take_append_drop 3 (allocated pre)] at hnd2
      exact (List.nodup_append.mp hnd2).2.2 hmem h2

end MultipleKernels
